import Mathlib

/-!
Shallow embedding of the SQL Server connection-string translator
(translator core: detector, tokenizing state-machine, keyword registry,
synonym and default indices, mapper, generators, orchestrator), together
with theorems settling the frozen claims about it.

Strings are modelled as lists of characters (`Str`); JavaScript string
primitives (`toLowerCase`, `trim`, `replace`, `includes`, `slice`) are
given explicit executable definitions.  JavaScript `Map` objects are
modelled as insertion-ordered association lists with replace-or-append
`set` semantics.  Regular-expression tests from the source are compiled
by hand into explicit scanners, faithful to the backtracking behaviour
analysed pattern by pattern.
-/

namespace CsTr

/-- Strings are lists of characters. -/
abbrev Str := List Char

/-- Literal helper: the character data of a Lean string literal. -/
def st (s : String) : Str := s.data

/-- JavaScript whitespace (ASCII part): the characters matched by `\s`
and trimmed by `String.prototype.trim`. -/
def jsIsSpace (c : Char) : Bool :=
  c = ' ' || c = '\t' || c = '\n' || c = '\r' || c = '\x0b' || c = '\x0c'

/-- ASCII lower-casing, the effect of `toLowerCase` on the inputs in scope. -/
def lowerC (c : Char) : Char := c.toLower

/-- JS `s.toLowerCase()`. -/
def lowerL (l : Str) : Str := l.map lowerC

/-- JS `s.trim()`. -/
def jsTrimL (l : Str) : Str :=
  ((l.dropWhile jsIsSpace).reverse.dropWhile jsIsSpace).reverse

/-- JS `s.replace(/\s+/g, '')`: drop every whitespace character. -/
def stripWsL (l : Str) : Str := l.filter (fun c => !(jsIsSpace c))

/-- Keyword normalization (`normalizeKeyword` and the synonym-index
normalization): lower-case, then remove all whitespace. -/
def normKeyL (l : Str) : Str := stripWsL (lowerL l)

/-- Whether LITERAL `p` occurs at the head of `l`. -/
def isPrefL (p l : Str) : Bool := decide (l.take p.length = p)

/-- JS `s.includes(sub)`. -/
def containsSubL (sub : Str) : Str → Bool
  | [] => isPrefL sub []
  | c :: rest => isPrefL sub (c :: rest) || containsSubL sub (rest)

/-- JS `s.replace(/c/g, rep)` for a single-character pattern. -/
def replCharL (c : Char) (rep : Str) : Str → Str
  | [] => []
  | x :: xs => (if x = c then rep else [x]) ++ replCharL c rep xs

/-- JS `s.replace(/qq/g, q)` for a doubled character — leftmost,
non-overlapping, exactly the global-replace semantics. -/
def undoubleL (q : Char) : Str → Str
  | [] => []
  | [x] => [x]
  | x :: y :: rest =>
    if x = q ∧ y = q then q :: undoubleL q rest
    else x :: undoubleL q (y :: rest)

/-- The seven driver tags (`DriverType` in `translator/types.ts`). -/
inductive DriverT where
  | sqlclient | odbc | oledb | jdbc | php | python | rust
deriving DecidableEq, Repr

/-- `ALL_DRIVERS`, in the fixed source order. -/
def allDrivers : List DriverT :=
  [.sqlclient, .odbc, .oledb, .jdbc, .php, .python, .rust]

/-! ## `utils/escaping.ts` -/

/-- `SPECIAL_CHARS`: characters that need escaping in values. -/
def SPECIAL_CHARS : List Char := [';', '=', '\x7b', '\x7d', '\x22', '\x27']

/-- `needsEscaping(value)`. -/
def needsEscaping (value : Str) : Bool :=
  SPECIAL_CHARS.any (fun c => value.contains c)

/-- `escapeValue(value, driver)`: wrap in quotes doubling inner quotes
(SqlClient / OLEDB / PHP / Python), wrap in braces doubling inner closing
braces (ODBC / JDBC), or backslash-escape inside quotes (Rust). -/
def escapeValue (value : Str) (driver : DriverT) : Str :=
  if !(needsEscaping value) then value
  else
    match driver with
    | .sqlclient | .oledb | .php | .python =>
      '\x22' :: (replCharL '\x22' ['\x22', '\x22'] value) ++ ['\x22']
    | .odbc | .jdbc =>
      '\x7b' :: (replCharL '\x7d' ['\x7d', '\x7d'] value) ++ ['\x7d']
    | .rust =>
      '\x22' :: (replCharL '\x22' ['\\', '\x22']
                  (replCharL '\\' ['\\', '\\'] value)) ++ ['\x22']

/-- Whether `l` starts with `a` and ends with `b` (JS
`startsWith`/`endsWith` pair on a non-empty string). -/
def seW (a b : Char) (l : Str) : Bool :=
  match l with
  | [] => false
  | c :: rest => c = a && (match (c :: rest).getLast? with
                           | some d => d = b
                           | none => false)

/-- JS `s.slice(1, -1)`. -/
def slice1m1 (l : Str) : Str := (l.drop 1).dropLast

/-- `unescapeValue(value)`: strip matching double quotes, single quotes or
braces from the trimmed value and undouble the corresponding escape;
otherwise return the value unchanged. -/
def unescapeValue (value : Str) : Str :=
  if value = [] then value
  else
    let trimmed := jsTrimL value
    if seW '\x22' '\x22' trimmed then undoubleL '\x22' (slice1m1 trimmed)
    else if seW '\x27' '\x27' trimmed then undoubleL '\x27' (slice1m1 trimmed)
    else if seW '\x7b' '\x7d' trimmed then undoubleL '\x7d' (slice1m1 trimmed)
    else value

/-- `isQuotedOrBraced(value)`. -/
def isQuotedOrBraced (value : Str) : Bool :=
  let trimmed := jsTrimL value
  seW '\x22' '\x22' trimmed || seW '\x27' '\x27' trimmed ||
    seW '\x7b' '\x7d' trimmed

/-! ## Registry data model (`translator/types.ts`) -/

/-- `KeywordValueType`. -/
inductive KType where
  | string | boolean | integer | enum
deriving DecidableEq, Repr

/-- Typed default values (`string | boolean | number` in the source; every
numeric default in the registry is a natural number). -/
inductive DefVal where
  | s (v : Str)
  | b (v : Bool)
  | n (v : Nat)
deriving DecidableEq, Repr

/-- `DriverKeyword`: per-(keyword, driver) configuration.  `name = none`
models the source's `name: null` ("not supported as key=value").  The
UI-only fields (`deprecationMessage`, `notes`) are omitted: no core code
path reads them. -/
structure DriverKeyword where
  name : Option Str
  synonyms : List Str := []
  type : KType
  defaultValue : Option DefVal := none
  required : Bool := false
  deprecated : Bool := false
  enumValues : List Str := []
deriving DecidableEq, Repr

/-- The seven per-driver slots of a `Keyword.drivers` object, in the
literal field order used throughout `data/keywords.ts` (which is also the
`Object.entries` iteration order). -/
structure DriverMapKW where
  sqlclient : Option DriverKeyword
  odbc : Option DriverKeyword
  oledb : Option DriverKeyword
  jdbc : Option DriverKeyword
  php : Option DriverKeyword
  python : Option DriverKeyword
  rust : Option DriverKeyword
deriving DecidableEq, Repr

/-- JS `keyword.drivers[driver]`. -/
def DriverMapKW.get (m : DriverMapKW) : DriverT → Option DriverKeyword
  | .sqlclient => m.sqlclient
  | .odbc => m.odbc
  | .oledb => m.oledb
  | .jdbc => m.jdbc
  | .php => m.php
  | .python => m.python
  | .rust => m.rust

/-- A canonical keyword (`Keyword`).  The UI-only `category` and
`description` fields are omitted: no core code path reads them. -/
structure Keyword where
  id : Str
  displayName : Str
  drivers : DriverMapKW
deriving DecidableEq, Repr

/-! ## `data/keywords.ts`: the keyword registry -/

/-- The complete keyword registry (`keywords`), transcribed entry by entry
from `data/keywords.ts` in definition order. -/
def keywords : List Keyword := [
  { id := st "server", displayName := st "Server/Host", drivers :=
    { sqlclient := some { name := some (st "Server"), synonyms := [st "Data Source", st "Address", st "Addr", st "Network Address"], type := .string, required := true },
      odbc := some { name := some (st "Server"), type := .string, required := true },
      oledb := some { name := some (st "Data Source"), type := .string, required := true },
      jdbc := some { name := none, type := .string, required := true },
      php := some { name := some (st "Server"), type := .string, required := true },
      python := some { name := some (st "Server"), type := .string, required := true },
      rust := some { name := some (st "transport_context.host"), type := .string, required := true } } },
  { id := st "database", displayName := st "Database", drivers :=
    { sqlclient := some { name := some (st "Database"), synonyms := [st "Initial Catalog"], type := .string },
      odbc := some { name := some (st "Database"), type := .string },
      oledb := some { name := some (st "Initial Catalog"), type := .string },
      jdbc := some { name := some (st "databaseName"), synonyms := [st "database"], type := .string },
      php := some { name := some (st "Database"), type := .string },
      python := some { name := some (st "Database"), type := .string },
      rust := some { name := some (st "database"), type := .string } } },
  { id := st "port", displayName := st "Port", drivers :=
    { sqlclient := some { name := none, type := .integer, defaultValue := some (.n 1433) },
      odbc := some { name := none, type := .integer, defaultValue := some (.n 1433) },
      oledb := some { name := none, type := .integer, defaultValue := some (.n 1433) },
      jdbc := some { name := none, type := .integer, defaultValue := some (.n 1433) },
      php := some { name := none, type := .integer, defaultValue := some (.n 1433) },
      python := some { name := some (st "Port"), type := .integer, defaultValue := some (.n 1433) },
      rust := some { name := some (st "transport_context.port"), type := .integer, defaultValue := some (.n 1433) } } },
  { id := st "instancename", displayName := st "Instance Name", drivers :=
    { sqlclient := some { name := none, type := .string },
      odbc := some { name := none, type := .string },
      oledb := some { name := none, type := .string },
      jdbc := some { name := some (st "instanceName"), type := .string },
      php := some { name := none, type := .string },
      python := some { name := none, type := .string },
      rust := some { name := none, type := .string } } },
  { id := st "userid", displayName := st "User ID", drivers :=
    { sqlclient := some { name := some (st "User ID"), synonyms := [st "User", st "UID"], type := .string },
      odbc := some { name := some (st "UID"), synonyms := [st "User ID"], type := .string },
      oledb := some { name := some (st "User ID"), type := .string },
      jdbc := some { name := some (st "user"), type := .string },
      php := some { name := some (st "UID"), type := .string },
      python := some { name := some (st "User"), synonyms := [st "UID"], type := .string },
      rust := some { name := some (st "auth.user"), type := .string } } },
  { id := st "password", displayName := st "Password", drivers :=
    { sqlclient := some { name := some (st "Password"), synonyms := [st "PWD"], type := .string },
      odbc := some { name := some (st "PWD"), synonyms := [st "Password"], type := .string },
      oledb := some { name := some (st "Password"), type := .string },
      jdbc := some { name := some (st "password"), type := .string },
      php := some { name := some (st "PWD"), type := .string },
      python := some { name := some (st "Password"), synonyms := [st "PWD"], type := .string },
      rust := some { name := some (st "auth.password"), type := .string } } },
  { id := st "integratedsecurity", displayName := st "Integrated Security", drivers :=
    { sqlclient := some { name := some (st "Integrated Security"), synonyms := [st "Trusted_Connection"], type := .boolean, defaultValue := some (.b false) },
      odbc := some { name := some (st "Trusted_Connection"), type := .boolean, defaultValue := some (.b false), enumValues := [st "Yes", st "No"] },
      oledb := some { name := some (st "Integrated Security"), type := .enum, enumValues := [st "SSPI"] },
      jdbc := some { name := some (st "integratedSecurity"), type := .boolean, defaultValue := some (.b false) },
      php := some { name := none, type := .boolean },
      python := some { name := some (st "Trusted_Connection"), type := .boolean, defaultValue := some (.b false) },
      rust := some { name := some (st "auth.integrated_security"), type := .boolean, defaultValue := some (.b false) } } },
  { id := st "authentication", displayName := st "Authentication", drivers :=
    { sqlclient := some { name := some (st "Authentication"), type := .enum, enumValues := [st "SqlPassword", st "ActiveDirectoryPassword", st "ActiveDirectoryIntegrated", st "ActiveDirectoryInteractive", st "ActiveDirectoryServicePrincipal", st "ActiveDirectoryManagedIdentity", st "ActiveDirectoryDefault"] },
      odbc := some { name := some (st "Authentication"), type := .enum, enumValues := [st "SqlPassword", st "ActiveDirectoryPassword", st "ActiveDirectoryIntegrated", st "ActiveDirectoryInteractive", st "ActiveDirectoryMsi"] },
      oledb := some { name := none, type := .enum },
      jdbc := some { name := some (st "authentication"), type := .enum, enumValues := [st "SqlPassword", st "ActiveDirectoryPassword", st "ActiveDirectoryIntegrated", st "ActiveDirectoryInteractive", st "ActiveDirectoryServicePrincipal", st "ActiveDirectoryManagedIdentity"] },
      php := some { name := some (st "Authentication"), type := .enum, enumValues := [st "SqlPassword", st "ActiveDirectoryPassword", st "ActiveDirectoryIntegrated", st "ActiveDirectoryMsi"] },
      python := some { name := some (st "Authentication"), type := .enum },
      rust := some { name := some (st "auth.authentication_method"), type := .enum } } },
  { id := st "encrypt", displayName := st "Encrypt", drivers :=
    { sqlclient := some { name := some (st "Encrypt"), type := .enum, defaultValue := some (.s (st "True")), enumValues := [st "True", st "False", st "Strict", st "Optional", st "Mandatory"] },
      odbc := some { name := some (st "Encrypt"), type := .enum, defaultValue := some (.s (st "yes")), enumValues := [st "yes", st "no", st "strict", st "true", st "false"] },
      oledb := some { name := some (st "Use Encryption for Data"), type := .boolean, defaultValue := some (.b false) },
      jdbc := some { name := some (st "encrypt"), type := .enum, defaultValue := some (.s (st "true")), enumValues := [st "true", st "false", st "strict"] },
      php := some { name := some (st "Encrypt"), type := .boolean, defaultValue := some (.b false) },
      python := some { name := some (st "Encrypt"), type := .boolean, defaultValue := some (.b false) },
      rust := some { name := some (st "encryption_options.mode"), type := .enum, enumValues := [st "Off", st "On", st "Required"] } } },
  { id := st "trustservercertificate", displayName := st "Trust Server Certificate", drivers :=
    { sqlclient := some { name := some (st "TrustServerCertificate"), type := .boolean, defaultValue := some (.b false) },
      odbc := some { name := some (st "TrustServerCertificate"), type := .boolean, defaultValue := some (.b false), enumValues := [st "yes", st "no"] },
      oledb := some { name := some (st "Trust Server Certificate"), type := .boolean, defaultValue := some (.b false) },
      jdbc := some { name := some (st "trustServerCertificate"), type := .boolean, defaultValue := some (.b false) },
      php := some { name := some (st "TrustServerCertificate"), type := .boolean, defaultValue := some (.b false) },
      python := some { name := some (st "TrustServerCertificate"), type := .boolean, defaultValue := some (.b false) },
      rust := some { name := some (st "encryption_options.trust_server_certificate"), type := .boolean, defaultValue := some (.b false) } } },
  { id := st "hostnameincertificate", displayName := st "Host Name In Certificate", drivers :=
    { sqlclient := some { name := some (st "HostNameInCertificate"), type := .string },
      odbc := some { name := some (st "HostNameInCertificate"), type := .string },
      oledb := some { name := none, type := .string },
      jdbc := some { name := some (st "hostNameInCertificate"), type := .string },
      php := some { name := none, type := .string },
      python := some { name := none, type := .string },
      rust := some { name := some (st "encryption_options.host_name_in_cert"), type := .string } } },
  { id := st "columnencryption", displayName := st "Column Encryption Setting", drivers :=
    { sqlclient := some { name := some (st "Column Encryption Setting"), type := .enum, enumValues := [st "Enabled", st "Disabled"] },
      odbc := some { name := some (st "ColumnEncryption"), type := .enum, enumValues := [st "Enabled", st "Disabled"] },
      oledb := some { name := none, type := .enum },
      jdbc := some { name := some (st "columnEncryptionSetting"), type := .enum, enumValues := [st "Enabled", st "Disabled"] },
      php := some { name := some (st "ColumnEncryption"), type := .enum, enumValues := [st "Enabled", st "Disabled"] },
      python := some { name := none, type := .enum },
      rust := some { name := none, type := .enum } } },
  { id := st "connecttimeout", displayName := st "Connection Timeout", drivers :=
    { sqlclient := some { name := some (st "Connect Timeout"), synonyms := [st "Connection Timeout", st "Timeout"], type := .integer, defaultValue := some (.n 15) },
      odbc := some { name := some (st "Connection Timeout"), type := .integer, defaultValue := some (.n 15) },
      oledb := some { name := some (st "Connect Timeout"), type := .integer, defaultValue := some (.n 15) },
      jdbc := some { name := some (st "loginTimeout"), type := .integer, defaultValue := some (.n 15) },
      php := some { name := some (st "LoginTimeout"), type := .integer, defaultValue := some (.n 15) },
      python := some { name := some (st "Connection Timeout"), type := .integer, defaultValue := some (.n 15) },
      rust := some { name := some (st "connect_timeout"), type := .integer, defaultValue := some (.n 15) } } },
  { id := st "commandtimeout", displayName := st "Command Timeout", drivers :=
    { sqlclient := some { name := some (st "Command Timeout"), type := .integer, defaultValue := some (.n 30) },
      odbc := some { name := none, type := .integer },
      oledb := some { name := none, type := .integer },
      jdbc := some { name := some (st "queryTimeout"), type := .integer, defaultValue := some (.n 0) },
      php := some { name := none, type := .integer },
      python := some { name := none, type := .integer },
      rust := some { name := some (st "command_timeout"), type := .integer } } },
  { id := st "applicationname", displayName := st "Application Name", drivers :=
    { sqlclient := some { name := some (st "Application Name"), synonyms := [st "App"], type := .string },
      odbc := some { name := some (st "APP"), type := .string },
      oledb := some { name := some (st "Application Name"), type := .string },
      jdbc := some { name := some (st "applicationName"), type := .string },
      php := some { name := some (st "APP"), type := .string },
      python := some { name := some (st "Application Name"), type := .string },
      rust := some { name := some (st "application_name"), type := .string } } },
  { id := st "workstationid", displayName := st "Workstation ID", drivers :=
    { sqlclient := some { name := some (st "Workstation ID"), synonyms := [st "WSID"], type := .string },
      odbc := some { name := some (st "WSID"), type := .string },
      oledb := some { name := some (st "Workstation ID"), type := .string },
      jdbc := some { name := some (st "workstationID"), type := .string },
      php := some { name := some (st "WSID"), type := .string },
      python := some { name := none, type := .string },
      rust := some { name := none, type := .string } } },
  { id := st "packetsize", displayName := st "Packet Size", drivers :=
    { sqlclient := some { name := some (st "Packet Size"), type := .integer, defaultValue := some (.n 8000) },
      odbc := some { name := none, type := .integer },
      oledb := some { name := some (st "Packet Size"), type := .integer, defaultValue := some (.n 4096) },
      jdbc := some { name := some (st "packetSize"), type := .integer, defaultValue := some (.n 8000) },
      php := some { name := none, type := .integer },
      python := some { name := none, type := .integer },
      rust := some { name := none, type := .integer } } },
  { id := st "multisubnetfailover", displayName := st "MultiSubnetFailover", drivers :=
    { sqlclient := some { name := some (st "MultiSubnetFailover"), type := .boolean, defaultValue := some (.b false) },
      odbc := some { name := some (st "MultiSubnetFailover"), type := .boolean, defaultValue := some (.b false), enumValues := [st "Yes", st "No"] },
      oledb := some { name := some (st "MultiSubnetFailover"), type := .boolean, defaultValue := some (.b false) },
      jdbc := some { name := some (st "multiSubnetFailover"), type := .boolean, defaultValue := some (.b false) },
      php := some { name := some (st "MultiSubnetFailover"), type := .boolean, defaultValue := some (.b false) },
      python := some { name := none, type := .boolean },
      rust := some { name := none, type := .boolean } } },
  { id := st "failoverpartner", displayName := st "Failover Partner", drivers :=
    { sqlclient := some { name := some (st "Failover Partner"), type := .string },
      odbc := some { name := some (st "Failover_Partner"), type := .string },
      oledb := some { name := some (st "Failover Partner"), type := .string },
      jdbc := some { name := some (st "failoverPartner"), type := .string },
      php := some { name := some (st "Failover_Partner"), type := .string },
      python := some { name := none, type := .string },
      rust := some { name := none, type := .string } } },
  { id := st "applicationintent", displayName := st "Application Intent", drivers :=
    { sqlclient := some { name := some (st "ApplicationIntent"), type := .enum, enumValues := [st "ReadWrite", st "ReadOnly"] },
      odbc := some { name := some (st "ApplicationIntent"), type := .enum, enumValues := [st "ReadWrite", st "ReadOnly"] },
      oledb := some { name := some (st "Application Intent"), type := .enum, enumValues := [st "ReadWrite", st "ReadOnly"] },
      jdbc := some { name := some (st "applicationIntent"), type := .enum, enumValues := [st "ReadWrite", st "ReadOnly"] },
      php := some { name := some (st "ApplicationIntent"), type := .enum, enumValues := [st "ReadWrite", st "ReadOnly"] },
      python := some { name := none, type := .enum },
      rust := some { name := none, type := .enum } } },
  { id := st "pooling", displayName := st "Pooling", drivers :=
    { sqlclient := some { name := some (st "Pooling"), type := .boolean, defaultValue := some (.b true) },
      odbc := some { name := none, type := .boolean },
      oledb := some { name := some (st "OLE DB Services"), type := .integer },
      jdbc := some { name := none, type := .boolean },
      php := some { name := some (st "ConnectionPooling"), type := .boolean, defaultValue := some (.b true) },
      python := some { name := none, type := .boolean },
      rust := some { name := none, type := .boolean } } },
  { id := st "minpoolsize", displayName := st "Min Pool Size", drivers :=
    { sqlclient := some { name := some (st "Min Pool Size"), type := .integer, defaultValue := some (.n 0) },
      odbc := some { name := none, type := .integer },
      oledb := some { name := none, type := .integer },
      jdbc := some { name := none, type := .integer },
      php := some { name := none, type := .integer },
      python := some { name := none, type := .integer },
      rust := some { name := none, type := .integer } } },
  { id := st "maxpoolsize", displayName := st "Max Pool Size", drivers :=
    { sqlclient := some { name := some (st "Max Pool Size"), type := .integer, defaultValue := some (.n 100) },
      odbc := some { name := none, type := .integer },
      oledb := some { name := none, type := .integer },
      jdbc := some { name := none, type := .integer },
      php := some { name := none, type := .integer },
      python := some { name := none, type := .integer },
      rust := some { name := none, type := .integer } } },
  { id := st "connectionlifetime", displayName := st "Connection Lifetime", drivers :=
    { sqlclient := some { name := some (st "Connection Lifetime"), synonyms := [st "Load Balance Timeout"], type := .integer, defaultValue := some (.n 0) },
      odbc := some { name := none, type := .integer },
      oledb := some { name := none, type := .integer },
      jdbc := some { name := none, type := .integer },
      php := some { name := none, type := .integer },
      python := some { name := none, type := .integer },
      rust := some { name := none, type := .integer } } },
  { id := st "mars", displayName := st "Multiple Active Result Sets", drivers :=
    { sqlclient := some { name := some (st "MultipleActiveResultSets"), type := .boolean, defaultValue := some (.b false) },
      odbc := some { name := some (st "MARS_Connection"), type := .boolean, defaultValue := some (.b false), enumValues := [st "Yes", st "No"] },
      oledb := some { name := some (st "MARS Connection"), type := .boolean, defaultValue := some (.b false) },
      jdbc := some { name := none, type := .boolean },
      php := some { name := some (st "MultipleActiveResultSets"), type := .boolean, defaultValue := some (.b false) },
      python := some { name := none, type := .boolean },
      rust := some { name := none, type := .boolean } } },
  { id := st "attachdbfilename", displayName := st "AttachDBFilename", drivers :=
    { sqlclient := some { name := some (st "AttachDBFilename"), synonyms := [st "Extended Properties", st "Initial File Name"], type := .string },
      odbc := some { name := some (st "AttachDBFilename"), type := .string },
      oledb := some { name := some (st "AttachDBFilename"), type := .string },
      jdbc := some { name := none, type := .string },
      php := some { name := some (st "AttachDBFilename"), type := .string },
      python := some { name := none, type := .string },
      rust := some { name := none, type := .string } } },
  { id := st "language", displayName := st "Current Language", drivers :=
    { sqlclient := some { name := some (st "Current Language"), synonyms := [st "Language"], type := .string },
      odbc := some { name := some (st "Language"), type := .string },
      oledb := some { name := some (st "Current Language"), type := .string },
      jdbc := some { name := none, type := .string },
      php := some { name := some (st "Language"), type := .string },
      python := some { name := none, type := .string },
      rust := some { name := none, type := .string } } },
  { id := st "replication", displayName := st "Replication", drivers :=
    { sqlclient := some { name := some (st "Replication"), type := .boolean, defaultValue := some (.b false) },
      odbc := some { name := none, type := .boolean },
      oledb := some { name := none, type := .boolean },
      jdbc := some { name := none, type := .boolean },
      php := some { name := none, type := .boolean },
      python := some { name := none, type := .boolean },
      rust := some { name := none, type := .boolean } } },
  { id := st "driver", displayName := st "Driver", drivers :=
    { sqlclient := some { name := none, type := .string },
      odbc := some { name := some (st "Driver"), type := .string, required := true },
      oledb := some { name := none, type := .string },
      jdbc := some { name := none, type := .string },
      php := some { name := none, type := .string },
      python := some { name := some (st "Driver"), type := .string },
      rust := some { name := none, type := .string } } },
  { id := st "provider", displayName := st "Provider", drivers :=
    { sqlclient := some { name := none, type := .string },
      odbc := some { name := none, type := .string },
      oledb := some { name := some (st "Provider"), type := .string, required := true },
      jdbc := some { name := none, type := .string },
      php := some { name := none, type := .string },
      python := some { name := none, type := .string },
      rust := some { name := none, type := .string } } },
  { id := st "typesystemversion", displayName := st "Type System Version", drivers :=
    { sqlclient := some { name := some (st "Type System Version"), type := .enum, enumValues := [st "SQL Server 2000", st "SQL Server 2005", st "SQL Server 2008", st "SQL Server 2012", st "Latest"] },
      odbc := some { name := none, type := .enum },
      oledb := some { name := none, type := .enum },
      jdbc := some { name := none, type := .enum },
      php := some { name := none, type := .enum },
      python := some { name := none, type := .enum },
      rust := some { name := none, type := .enum } } },
  { id := st "connectretrycount", displayName := st "Connect Retry Count", drivers :=
    { sqlclient := some { name := some (st "ConnectRetryCount"), type := .integer, defaultValue := some (.n 1) },
      odbc := some { name := some (st "ConnectRetryCount"), type := .integer, defaultValue := some (.n 1) },
      oledb := some { name := none, type := .integer },
      jdbc := some { name := some (st "connectRetryCount"), type := .integer, defaultValue := some (.n 1) },
      php := some { name := some (st "ConnectRetryCount"), type := .integer, defaultValue := some (.n 1) },
      python := some { name := none, type := .integer },
      rust := some { name := none, type := .integer } } },
  { id := st "connectretryinterval", displayName := st "Connect Retry Interval", drivers :=
    { sqlclient := some { name := some (st "ConnectRetryInterval"), type := .integer, defaultValue := some (.n 10) },
      odbc := some { name := some (st "ConnectRetryInterval"), type := .integer, defaultValue := some (.n 10) },
      oledb := some { name := none, type := .integer },
      jdbc := some { name := some (st "connectRetryInterval"), type := .integer, defaultValue := some (.n 10) },
      php := some { name := some (st "ConnectRetryInterval"), type := .integer, defaultValue := some (.n 10) },
      python := some { name := none, type := .integer },
      rust := some { name := none, type := .integer } } },
  { id := st "persistsecurityinfo", displayName := st "Persist Security Info", drivers :=
    { sqlclient := some { name := some (st "Persist Security Info"), synonyms := [st "PersistSecurityInfo"], type := .boolean, defaultValue := some (.b false) },
      odbc := some { name := none, type := .boolean },
      oledb := some { name := some (st "Persist Security Info"), type := .boolean, defaultValue := some (.b false) },
      jdbc := some { name := none, type := .boolean },
      php := some { name := none, type := .boolean },
      python := some { name := none, type := .boolean },
      rust := some { name := none, type := .boolean } } },
  { id := st "enlist", displayName := st "Enlist", drivers :=
    { sqlclient := some { name := some (st "Enlist"), type := .boolean, defaultValue := some (.b true) },
      odbc := some { name := none, type := .boolean },
      oledb := some { name := none, type := .boolean },
      jdbc := some { name := none, type := .boolean },
      php := some { name := none, type := .boolean },
      python := some { name := none, type := .boolean },
      rust := some { name := none, type := .boolean } } },
  { id := st "ipaddresspreference", displayName := st "IP Address Preference", drivers :=
    { sqlclient := some { name := some (st "IPAddressPreference"), synonyms := [st "IP Address Preference"], type := .enum, defaultValue := some (.s (st "IPv4First")), enumValues := [st "IPv4First", st "IPv6First", st "UsePlatformDefault"] },
      odbc := some { name := none, type := .enum },
      oledb := some { name := none, type := .enum },
      jdbc := some { name := none, type := .enum },
      php := some { name := none, type := .enum },
      python := some { name := none, type := .enum },
      rust := some { name := none, type := .enum } } },
  { id := st "poolblockingperiod", displayName := st "Pool Blocking Period", drivers :=
    { sqlclient := some { name := some (st "PoolBlockingPeriod"), synonyms := [st "Pool Blocking Period"], type := .enum, defaultValue := some (.s (st "Auto")), enumValues := [st "Auto", st "AlwaysBlock", st "NeverBlock"] },
      odbc := some { name := none, type := .enum },
      oledb := some { name := none, type := .enum },
      jdbc := some { name := none, type := .enum },
      php := some { name := none, type := .enum },
      python := some { name := none, type := .enum },
      rust := some { name := none, type := .enum } } },
  { id := st "attestationprotocol", displayName := st "Attestation Protocol", drivers :=
    { sqlclient := some { name := some (st "Attestation Protocol"), type := .enum, defaultValue := some (.s (st "NotSpecified")), enumValues := [st "NotSpecified", st "AAS", st "HGS", st "None"] },
      odbc := some { name := none, type := .enum },
      oledb := some { name := none, type := .enum },
      jdbc := some { name := some (st "enclaveAttestationProtocol"), type := .enum, enumValues := [st "HGS", st "AAS", st "NONE"] },
      php := some { name := none, type := .enum },
      python := some { name := none, type := .enum },
      rust := some { name := none, type := .enum } } },
  { id := st "enclaveattestationurl", displayName := st "Enclave Attestation URL", drivers :=
    { sqlclient := some { name := some (st "Enclave Attestation Url"), type := .string },
      odbc := some { name := none, type := .string },
      oledb := some { name := none, type := .string },
      jdbc := some { name := some (st "enclaveAttestationUrl"), type := .string },
      php := some { name := none, type := .string },
      python := some { name := none, type := .string },
      rust := some { name := none, type := .string } } },
  { id := st "servercertificate", displayName := st "Server Certificate", drivers :=
    { sqlclient := some { name := some (st "ServerCertificate"), synonyms := [st "Server Certificate"], type := .string },
      odbc := some { name := none, type := .string },
      oledb := some { name := none, type := .string },
      jdbc := some { name := none, type := .string },
      php := some { name := none, type := .string },
      python := some { name := none, type := .string },
      rust := some { name := none, type := .string } } },
  { id := st "serverspn", displayName := st "Server SPN", drivers :=
    { sqlclient := some { name := some (st "ServerSPN"), synonyms := [st "Server SPN"], type := .string },
      odbc := some { name := some (st "ServerSPN"), type := .string },
      oledb := some { name := none, type := .string },
      jdbc := some { name := some (st "serverSpn"), type := .string },
      php := some { name := none, type := .string },
      python := some { name := none, type := .string },
      rust := some { name := none, type := .string } } },
  { id := st "failoverpartnerspn", displayName := st "Failover Partner SPN", drivers :=
    { sqlclient := some { name := some (st "FailoverPartnerSPN"), synonyms := [st "Failover Partner SPN"], type := .string },
      odbc := some { name := some (st "FailoverPartnerServerSPN"), type := .string },
      oledb := some { name := none, type := .string },
      jdbc := some { name := some (st "failoverPartnerSpn"), type := .string },
      php := some { name := none, type := .string },
      python := some { name := none, type := .string },
      rust := some { name := none, type := .string } } },
  { id := st "userinstance", displayName := st "User Instance", drivers :=
    { sqlclient := some { name := some (st "User Instance"), type := .boolean, defaultValue := some (.b false) },
      odbc := some { name := none, type := .boolean },
      oledb := some { name := none, type := .boolean },
      jdbc := some { name := none, type := .boolean },
      php := some { name := none, type := .boolean },
      python := some { name := none, type := .boolean },
      rust := some { name := none, type := .boolean } } },
  { id := st "transactionbinding", displayName := st "Transaction Binding", drivers :=
    { sqlclient := some { name := some (st "Transaction Binding"), type := .enum, defaultValue := some (.s (st "Implicit Unbind")), enumValues := [st "Implicit Unbind", st "Explicit Unbind"] },
      odbc := some { name := none, type := .enum },
      oledb := some { name := none, type := .enum },
      jdbc := some { name := none, type := .enum },
      php := some { name := none, type := .enum },
      python := some { name := none, type := .enum },
      rust := some { name := none, type := .enum } } },
  { id := st "transparentnetworkipresolution", displayName := st "Transparent Network IP Resolution", drivers :=
    { sqlclient := some { name := some (st "TransparentNetworkIPResolution"), synonyms := [st "Transparent Network IP Resolution"], type := .boolean, defaultValue := some (.b true) },
      odbc := some { name := some (st "TransparentNetworkIPResolution"), type := .boolean },
      oledb := some { name := none, type := .boolean },
      jdbc := some { name := none, type := .boolean },
      php := some { name := some (st "TransparentNetworkIPResolution"), type := .boolean },
      python := some { name := none, type := .boolean },
      rust := some { name := none, type := .boolean } } },
  { id := st "networklibrary", displayName := st "Network Library", drivers :=
    { sqlclient := some { name := some (st "Network Library"), synonyms := [st "Network", st "Net"], type := .string },
      odbc := some { name := some (st "Network"), type := .string },
      oledb := some { name := some (st "Network Library"), type := .string },
      jdbc := some { name := none, type := .string },
      php := some { name := none, type := .string },
      python := some { name := none, type := .string },
      rust := some { name := none, type := .string } } }]

/-- `getKeywordById(id)`. -/
def getKeywordById (id : Str) : Option Keyword :=
  keywords.find? (fun k => k.id == lowerL id)

/-! ## JavaScript `Map` model -/

/-- JS `Map.prototype.set`: replace in place if the key exists, else
append (insertion order preserved). -/
def mapSet {α : Type} : List (Str × α) → Str → α → List (Str × α)
  | [], k, v => [(k, v)]
  | (k', v') :: rest, k, v =>
    if k' = k then (k, v) :: rest else (k', v') :: mapSet rest k v

/-! ## `data/synonyms.ts`: the synonym index -/

/-- The global synonym map together with the seven per-driver maps
(`globalSynonyms` / `driverSynonyms`). -/
structure SynTables where
  global : List (Str × Str)
  sqlclient : List (Str × Str)
  odbc : List (Str × Str)
  oledb : List (Str × Str)
  jdbc : List (Str × Str)
  php : List (Str × Str)
  python : List (Str × Str)
  rust : List (Str × Str)
deriving DecidableEq, Repr

/-- The per-driver synonym map of a table set. -/
def SynTables.get (t : SynTables) : DriverT → List (Str × Str)
  | .sqlclient => t.sqlclient
  | .odbc => t.odbc
  | .oledb => t.oledb
  | .jdbc => t.jdbc
  | .php => t.php
  | .python => t.python
  | .rust => t.rust

/-- Record one accepted spelling in a driver map and in the global map. -/
def synAdd (t : SynTables) (d : DriverT) (key canonical : Str) : SynTables :=
  let t1 :=
    match d with
    | .sqlclient => { t with sqlclient := mapSet t.sqlclient key canonical }
    | .odbc => { t with odbc := mapSet t.odbc key canonical }
    | .oledb => { t with oledb := mapSet t.oledb key canonical }
    | .jdbc => { t with jdbc := mapSet t.jdbc key canonical }
    | .php => { t with php := mapSet t.php key canonical }
    | .python => { t with python := mapSet t.python key canonical }
    | .rust => { t with rust := mapSet t.rust key canonical }
  { t1 with global := mapSet t1.global key canonical }

/-- Record one driver representation's name and synonyms, each in the
whitespace-stripped and the space-preserving lower-case spellings, in the
order the source adds them. -/
def synAddEntry (t : SynTables) (d : DriverT) (dk : DriverKeyword) (cid : Str) : SynTables :=
  let t1 :=
    match dk.name with
    | some nm => synAdd (synAdd t d (normKeyL nm) cid) d (lowerL nm) cid
    | none => t
  dk.synonyms.foldl
    (fun acc syn => synAdd (synAdd acc d (normKeyL syn) cid) d (lowerL syn) cid) t1

/-- `buildSynonymMaps()`: derive the synonym index from the registry,
iterating keywords in definition order and drivers in field order. -/
def buildSynTables : SynTables :=
  keywords.foldl
    (fun t k =>
      allDrivers.foldl
        (fun t2 d =>
          match k.drivers.get d with
          | none => t2
          | some dk => synAddEntry t2 d dk k.id) t)
    { global := [], sqlclient := [], odbc := [], oledb := [], jdbc := [],
      php := [], python := [], rust := [] }

/-! ## `data/defaults.ts`: the defaults index -/

/-- The seven per-driver default-value maps (`driverDefaults`). -/
structure DefTables where
  sqlclient : List (Str × DefVal)
  odbc : List (Str × DefVal)
  oledb : List (Str × DefVal)
  jdbc : List (Str × DefVal)
  php : List (Str × DefVal)
  python : List (Str × DefVal)
  rust : List (Str × DefVal)
deriving DecidableEq, Repr

/-- The per-driver defaults map of a table set. -/
def DefTables.get (t : DefTables) : DriverT → List (Str × DefVal)
  | .sqlclient => t.sqlclient
  | .odbc => t.odbc
  | .oledb => t.oledb
  | .jdbc => t.jdbc
  | .php => t.php
  | .python => t.python
  | .rust => t.rust

/-- Record one default value under a driver. -/
def defAdd (t : DefTables) (d : DriverT) (key : Str) (v : DefVal) : DefTables :=
  match d with
  | .sqlclient => { t with sqlclient := mapSet t.sqlclient key v }
  | .odbc => { t with odbc := mapSet t.odbc key v }
  | .oledb => { t with oledb := mapSet t.oledb key v }
  | .jdbc => { t with jdbc := mapSet t.jdbc key v }
  | .php => { t with php := mapSet t.php key v }
  | .python => { t with python := mapSet t.python key v }
  | .rust => { t with rust := mapSet t.rust key v }

/-- `buildDefaultMaps()`: derive the defaults index from the registry. -/
def buildDefTables : DefTables :=
  keywords.foldl
    (fun t k =>
      allDrivers.foldl
        (fun t2 d =>
          match k.drivers.get d with
          | some dk =>
            match dk.defaultValue with
            | some v => defAdd t2 d k.id v
            | none => t2
          | none => t2) t)
    { sqlclient := [], odbc := [], oledb := [], jdbc := [],
      php := [], python := [], rust := [] }

/-- The synonym index (`globalSynonyms` / `driverSynonyms`), as the
source holds it after module initialization.  `synTables_builds` below
checks that this table is exactly what `buildSynTables` derives from the
registry. -/
def synTables : SynTables where
  global := [
    (st "server", st "server"),
    (st "datasource", st "server"),
    (st "data source", st "server"),
    (st "address", st "server"),
    (st "addr", st "server"),
    (st "networkaddress", st "server"),
    (st "network address", st "server"),
    (st "transport_context.host", st "server"),
    (st "database", st "database"),
    (st "initialcatalog", st "database"),
    (st "initial catalog", st "database"),
    (st "databasename", st "database"),
    (st "port", st "port"),
    (st "transport_context.port", st "port"),
    (st "instancename", st "instancename"),
    (st "userid", st "userid"),
    (st "user id", st "userid"),
    (st "user", st "userid"),
    (st "uid", st "userid"),
    (st "auth.user", st "userid"),
    (st "password", st "password"),
    (st "pwd", st "password"),
    (st "auth.password", st "password"),
    (st "integratedsecurity", st "integratedsecurity"),
    (st "integrated security", st "integratedsecurity"),
    (st "trusted_connection", st "integratedsecurity"),
    (st "auth.integrated_security", st "integratedsecurity"),
    (st "authentication", st "authentication"),
    (st "auth.authentication_method", st "authentication"),
    (st "encrypt", st "encrypt"),
    (st "useencryptionfordata", st "encrypt"),
    (st "use encryption for data", st "encrypt"),
    (st "encryption_options.mode", st "encrypt"),
    (st "trustservercertificate", st "trustservercertificate"),
    (st "trust server certificate", st "trustservercertificate"),
    (st "encryption_options.trust_server_certificate", st "trustservercertificate"),
    (st "hostnameincertificate", st "hostnameincertificate"),
    (st "encryption_options.host_name_in_cert", st "hostnameincertificate"),
    (st "columnencryptionsetting", st "columnencryption"),
    (st "column encryption setting", st "columnencryption"),
    (st "columnencryption", st "columnencryption"),
    (st "connecttimeout", st "connecttimeout"),
    (st "connect timeout", st "connecttimeout"),
    (st "connectiontimeout", st "connecttimeout"),
    (st "connection timeout", st "connecttimeout"),
    (st "timeout", st "connecttimeout"),
    (st "logintimeout", st "connecttimeout"),
    (st "connect_timeout", st "connecttimeout"),
    (st "commandtimeout", st "commandtimeout"),
    (st "command timeout", st "commandtimeout"),
    (st "querytimeout", st "commandtimeout"),
    (st "command_timeout", st "commandtimeout"),
    (st "applicationname", st "applicationname"),
    (st "application name", st "applicationname"),
    (st "app", st "applicationname"),
    (st "application_name", st "applicationname"),
    (st "workstationid", st "workstationid"),
    (st "workstation id", st "workstationid"),
    (st "wsid", st "workstationid"),
    (st "packetsize", st "packetsize"),
    (st "packet size", st "packetsize"),
    (st "multisubnetfailover", st "multisubnetfailover"),
    (st "failoverpartner", st "failoverpartner"),
    (st "failover partner", st "failoverpartner"),
    (st "failover_partner", st "failoverpartner"),
    (st "applicationintent", st "applicationintent"),
    (st "application intent", st "applicationintent"),
    (st "pooling", st "pooling"),
    (st "oledbservices", st "pooling"),
    (st "ole db services", st "pooling"),
    (st "connectionpooling", st "pooling"),
    (st "minpoolsize", st "minpoolsize"),
    (st "min pool size", st "minpoolsize"),
    (st "maxpoolsize", st "maxpoolsize"),
    (st "max pool size", st "maxpoolsize"),
    (st "connectionlifetime", st "connectionlifetime"),
    (st "connection lifetime", st "connectionlifetime"),
    (st "loadbalancetimeout", st "connectionlifetime"),
    (st "load balance timeout", st "connectionlifetime"),
    (st "multipleactiveresultsets", st "mars"),
    (st "mars_connection", st "mars"),
    (st "marsconnection", st "mars"),
    (st "mars connection", st "mars"),
    (st "attachdbfilename", st "attachdbfilename"),
    (st "extendedproperties", st "attachdbfilename"),
    (st "extended properties", st "attachdbfilename"),
    (st "initialfilename", st "attachdbfilename"),
    (st "initial file name", st "attachdbfilename"),
    (st "currentlanguage", st "language"),
    (st "current language", st "language"),
    (st "language", st "language"),
    (st "replication", st "replication"),
    (st "driver", st "driver"),
    (st "provider", st "provider"),
    (st "typesystemversion", st "typesystemversion"),
    (st "type system version", st "typesystemversion"),
    (st "connectretrycount", st "connectretrycount"),
    (st "connectretryinterval", st "connectretryinterval"),
    (st "persistsecurityinfo", st "persistsecurityinfo"),
    (st "persist security info", st "persistsecurityinfo"),
    (st "enlist", st "enlist"),
    (st "ipaddresspreference", st "ipaddresspreference"),
    (st "ip address preference", st "ipaddresspreference"),
    (st "poolblockingperiod", st "poolblockingperiod"),
    (st "pool blocking period", st "poolblockingperiod"),
    (st "attestationprotocol", st "attestationprotocol"),
    (st "attestation protocol", st "attestationprotocol"),
    (st "enclaveattestationprotocol", st "attestationprotocol"),
    (st "enclaveattestationurl", st "enclaveattestationurl"),
    (st "enclave attestation url", st "enclaveattestationurl"),
    (st "servercertificate", st "servercertificate"),
    (st "server certificate", st "servercertificate"),
    (st "serverspn", st "serverspn"),
    (st "server spn", st "serverspn"),
    (st "failoverpartnerspn", st "failoverpartnerspn"),
    (st "failover partner spn", st "failoverpartnerspn"),
    (st "failoverpartnerserverspn", st "failoverpartnerspn"),
    (st "userinstance", st "userinstance"),
    (st "user instance", st "userinstance"),
    (st "transactionbinding", st "transactionbinding"),
    (st "transaction binding", st "transactionbinding"),
    (st "transparentnetworkipresolution", st "transparentnetworkipresolution"),
    (st "transparent network ip resolution", st "transparentnetworkipresolution"),
    (st "networklibrary", st "networklibrary"),
    (st "network library", st "networklibrary"),
    (st "network", st "networklibrary"),
    (st "net", st "networklibrary")]
  sqlclient := [
    (st "server", st "server"),
    (st "datasource", st "server"),
    (st "data source", st "server"),
    (st "address", st "server"),
    (st "addr", st "server"),
    (st "networkaddress", st "server"),
    (st "network address", st "server"),
    (st "database", st "database"),
    (st "initialcatalog", st "database"),
    (st "initial catalog", st "database"),
    (st "userid", st "userid"),
    (st "user id", st "userid"),
    (st "user", st "userid"),
    (st "uid", st "userid"),
    (st "password", st "password"),
    (st "pwd", st "password"),
    (st "integratedsecurity", st "integratedsecurity"),
    (st "integrated security", st "integratedsecurity"),
    (st "trusted_connection", st "integratedsecurity"),
    (st "authentication", st "authentication"),
    (st "encrypt", st "encrypt"),
    (st "trustservercertificate", st "trustservercertificate"),
    (st "hostnameincertificate", st "hostnameincertificate"),
    (st "columnencryptionsetting", st "columnencryption"),
    (st "column encryption setting", st "columnencryption"),
    (st "connecttimeout", st "connecttimeout"),
    (st "connect timeout", st "connecttimeout"),
    (st "connectiontimeout", st "connecttimeout"),
    (st "connection timeout", st "connecttimeout"),
    (st "timeout", st "connecttimeout"),
    (st "commandtimeout", st "commandtimeout"),
    (st "command timeout", st "commandtimeout"),
    (st "applicationname", st "applicationname"),
    (st "application name", st "applicationname"),
    (st "app", st "applicationname"),
    (st "workstationid", st "workstationid"),
    (st "workstation id", st "workstationid"),
    (st "wsid", st "workstationid"),
    (st "packetsize", st "packetsize"),
    (st "packet size", st "packetsize"),
    (st "multisubnetfailover", st "multisubnetfailover"),
    (st "failoverpartner", st "failoverpartner"),
    (st "failover partner", st "failoverpartner"),
    (st "applicationintent", st "applicationintent"),
    (st "pooling", st "pooling"),
    (st "minpoolsize", st "minpoolsize"),
    (st "min pool size", st "minpoolsize"),
    (st "maxpoolsize", st "maxpoolsize"),
    (st "max pool size", st "maxpoolsize"),
    (st "connectionlifetime", st "connectionlifetime"),
    (st "connection lifetime", st "connectionlifetime"),
    (st "loadbalancetimeout", st "connectionlifetime"),
    (st "load balance timeout", st "connectionlifetime"),
    (st "multipleactiveresultsets", st "mars"),
    (st "attachdbfilename", st "attachdbfilename"),
    (st "extendedproperties", st "attachdbfilename"),
    (st "extended properties", st "attachdbfilename"),
    (st "initialfilename", st "attachdbfilename"),
    (st "initial file name", st "attachdbfilename"),
    (st "currentlanguage", st "language"),
    (st "current language", st "language"),
    (st "language", st "language"),
    (st "replication", st "replication"),
    (st "typesystemversion", st "typesystemversion"),
    (st "type system version", st "typesystemversion"),
    (st "connectretrycount", st "connectretrycount"),
    (st "connectretryinterval", st "connectretryinterval"),
    (st "persistsecurityinfo", st "persistsecurityinfo"),
    (st "persist security info", st "persistsecurityinfo"),
    (st "enlist", st "enlist"),
    (st "ipaddresspreference", st "ipaddresspreference"),
    (st "ip address preference", st "ipaddresspreference"),
    (st "poolblockingperiod", st "poolblockingperiod"),
    (st "pool blocking period", st "poolblockingperiod"),
    (st "attestationprotocol", st "attestationprotocol"),
    (st "attestation protocol", st "attestationprotocol"),
    (st "enclaveattestationurl", st "enclaveattestationurl"),
    (st "enclave attestation url", st "enclaveattestationurl"),
    (st "servercertificate", st "servercertificate"),
    (st "server certificate", st "servercertificate"),
    (st "serverspn", st "serverspn"),
    (st "server spn", st "serverspn"),
    (st "failoverpartnerspn", st "failoverpartnerspn"),
    (st "failover partner spn", st "failoverpartnerspn"),
    (st "userinstance", st "userinstance"),
    (st "user instance", st "userinstance"),
    (st "transactionbinding", st "transactionbinding"),
    (st "transaction binding", st "transactionbinding"),
    (st "transparentnetworkipresolution", st "transparentnetworkipresolution"),
    (st "transparent network ip resolution", st "transparentnetworkipresolution"),
    (st "networklibrary", st "networklibrary"),
    (st "network library", st "networklibrary"),
    (st "network", st "networklibrary"),
    (st "net", st "networklibrary")]
  odbc := [
    (st "server", st "server"),
    (st "database", st "database"),
    (st "uid", st "userid"),
    (st "userid", st "userid"),
    (st "user id", st "userid"),
    (st "pwd", st "password"),
    (st "password", st "password"),
    (st "trusted_connection", st "integratedsecurity"),
    (st "authentication", st "authentication"),
    (st "encrypt", st "encrypt"),
    (st "trustservercertificate", st "trustservercertificate"),
    (st "hostnameincertificate", st "hostnameincertificate"),
    (st "columnencryption", st "columnencryption"),
    (st "connectiontimeout", st "connecttimeout"),
    (st "connection timeout", st "connecttimeout"),
    (st "app", st "applicationname"),
    (st "wsid", st "workstationid"),
    (st "multisubnetfailover", st "multisubnetfailover"),
    (st "failover_partner", st "failoverpartner"),
    (st "applicationintent", st "applicationintent"),
    (st "mars_connection", st "mars"),
    (st "attachdbfilename", st "attachdbfilename"),
    (st "language", st "language"),
    (st "driver", st "driver"),
    (st "connectretrycount", st "connectretrycount"),
    (st "connectretryinterval", st "connectretryinterval"),
    (st "serverspn", st "serverspn"),
    (st "failoverpartnerserverspn", st "failoverpartnerspn"),
    (st "transparentnetworkipresolution", st "transparentnetworkipresolution"),
    (st "network", st "networklibrary")]
  oledb := [
    (st "datasource", st "server"),
    (st "data source", st "server"),
    (st "initialcatalog", st "database"),
    (st "initial catalog", st "database"),
    (st "userid", st "userid"),
    (st "user id", st "userid"),
    (st "password", st "password"),
    (st "integratedsecurity", st "integratedsecurity"),
    (st "integrated security", st "integratedsecurity"),
    (st "useencryptionfordata", st "encrypt"),
    (st "use encryption for data", st "encrypt"),
    (st "trustservercertificate", st "trustservercertificate"),
    (st "trust server certificate", st "trustservercertificate"),
    (st "connecttimeout", st "connecttimeout"),
    (st "connect timeout", st "connecttimeout"),
    (st "applicationname", st "applicationname"),
    (st "application name", st "applicationname"),
    (st "workstationid", st "workstationid"),
    (st "workstation id", st "workstationid"),
    (st "packetsize", st "packetsize"),
    (st "packet size", st "packetsize"),
    (st "multisubnetfailover", st "multisubnetfailover"),
    (st "failoverpartner", st "failoverpartner"),
    (st "failover partner", st "failoverpartner"),
    (st "applicationintent", st "applicationintent"),
    (st "application intent", st "applicationintent"),
    (st "oledbservices", st "pooling"),
    (st "ole db services", st "pooling"),
    (st "marsconnection", st "mars"),
    (st "mars connection", st "mars"),
    (st "attachdbfilename", st "attachdbfilename"),
    (st "currentlanguage", st "language"),
    (st "current language", st "language"),
    (st "provider", st "provider"),
    (st "persistsecurityinfo", st "persistsecurityinfo"),
    (st "persist security info", st "persistsecurityinfo"),
    (st "networklibrary", st "networklibrary"),
    (st "network library", st "networklibrary")]
  jdbc := [
    (st "databasename", st "database"),
    (st "database", st "database"),
    (st "instancename", st "instancename"),
    (st "user", st "userid"),
    (st "password", st "password"),
    (st "integratedsecurity", st "integratedsecurity"),
    (st "authentication", st "authentication"),
    (st "encrypt", st "encrypt"),
    (st "trustservercertificate", st "trustservercertificate"),
    (st "hostnameincertificate", st "hostnameincertificate"),
    (st "columnencryptionsetting", st "columnencryption"),
    (st "logintimeout", st "connecttimeout"),
    (st "querytimeout", st "commandtimeout"),
    (st "applicationname", st "applicationname"),
    (st "workstationid", st "workstationid"),
    (st "packetsize", st "packetsize"),
    (st "multisubnetfailover", st "multisubnetfailover"),
    (st "failoverpartner", st "failoverpartner"),
    (st "applicationintent", st "applicationintent"),
    (st "connectretrycount", st "connectretrycount"),
    (st "connectretryinterval", st "connectretryinterval"),
    (st "enclaveattestationprotocol", st "attestationprotocol"),
    (st "enclaveattestationurl", st "enclaveattestationurl"),
    (st "serverspn", st "serverspn"),
    (st "failoverpartnerspn", st "failoverpartnerspn")]
  php := [
    (st "server", st "server"),
    (st "database", st "database"),
    (st "uid", st "userid"),
    (st "pwd", st "password"),
    (st "authentication", st "authentication"),
    (st "encrypt", st "encrypt"),
    (st "trustservercertificate", st "trustservercertificate"),
    (st "columnencryption", st "columnencryption"),
    (st "logintimeout", st "connecttimeout"),
    (st "app", st "applicationname"),
    (st "wsid", st "workstationid"),
    (st "multisubnetfailover", st "multisubnetfailover"),
    (st "failover_partner", st "failoverpartner"),
    (st "applicationintent", st "applicationintent"),
    (st "connectionpooling", st "pooling"),
    (st "multipleactiveresultsets", st "mars"),
    (st "attachdbfilename", st "attachdbfilename"),
    (st "language", st "language"),
    (st "connectretrycount", st "connectretrycount"),
    (st "connectretryinterval", st "connectretryinterval"),
    (st "transparentnetworkipresolution", st "transparentnetworkipresolution")]
  python := [
    (st "server", st "server"),
    (st "database", st "database"),
    (st "port", st "port"),
    (st "user", st "userid"),
    (st "uid", st "userid"),
    (st "password", st "password"),
    (st "pwd", st "password"),
    (st "trusted_connection", st "integratedsecurity"),
    (st "authentication", st "authentication"),
    (st "encrypt", st "encrypt"),
    (st "trustservercertificate", st "trustservercertificate"),
    (st "connectiontimeout", st "connecttimeout"),
    (st "connection timeout", st "connecttimeout"),
    (st "applicationname", st "applicationname"),
    (st "application name", st "applicationname"),
    (st "driver", st "driver")]
  rust := [
    (st "transport_context.host", st "server"),
    (st "database", st "database"),
    (st "transport_context.port", st "port"),
    (st "auth.user", st "userid"),
    (st "auth.password", st "password"),
    (st "auth.integrated_security", st "integratedsecurity"),
    (st "auth.authentication_method", st "authentication"),
    (st "encryption_options.mode", st "encrypt"),
    (st "encryption_options.trust_server_certificate", st "trustservercertificate"),
    (st "encryption_options.host_name_in_cert", st "hostnameincertificate"),
    (st "connect_timeout", st "connecttimeout"),
    (st "command_timeout", st "commandtimeout"),
    (st "application_name", st "applicationname")]

/-- The defaults index (`driverDefaults`) after module initialization;
`defTables_builds` below checks it against `buildDefTables`. -/
def defTables : DefTables where
  sqlclient := [
    (st "port", .n 1433),
    (st "integratedsecurity", .b false),
    (st "encrypt", .s (st "True")),
    (st "trustservercertificate", .b false),
    (st "connecttimeout", .n 15),
    (st "commandtimeout", .n 30),
    (st "packetsize", .n 8000),
    (st "multisubnetfailover", .b false),
    (st "pooling", .b true),
    (st "minpoolsize", .n 0),
    (st "maxpoolsize", .n 100),
    (st "connectionlifetime", .n 0),
    (st "mars", .b false),
    (st "replication", .b false),
    (st "connectretrycount", .n 1),
    (st "connectretryinterval", .n 10),
    (st "persistsecurityinfo", .b false),
    (st "enlist", .b true),
    (st "ipaddresspreference", .s (st "IPv4First")),
    (st "poolblockingperiod", .s (st "Auto")),
    (st "attestationprotocol", .s (st "NotSpecified")),
    (st "userinstance", .b false),
    (st "transactionbinding", .s (st "Implicit Unbind")),
    (st "transparentnetworkipresolution", .b true)]
  odbc := [
    (st "port", .n 1433),
    (st "integratedsecurity", .b false),
    (st "encrypt", .s (st "yes")),
    (st "trustservercertificate", .b false),
    (st "connecttimeout", .n 15),
    (st "multisubnetfailover", .b false),
    (st "mars", .b false),
    (st "connectretrycount", .n 1),
    (st "connectretryinterval", .n 10)]
  oledb := [
    (st "port", .n 1433),
    (st "encrypt", .b false),
    (st "trustservercertificate", .b false),
    (st "connecttimeout", .n 15),
    (st "packetsize", .n 4096),
    (st "multisubnetfailover", .b false),
    (st "mars", .b false),
    (st "persistsecurityinfo", .b false)]
  jdbc := [
    (st "port", .n 1433),
    (st "integratedsecurity", .b false),
    (st "encrypt", .s (st "true")),
    (st "trustservercertificate", .b false),
    (st "connecttimeout", .n 15),
    (st "commandtimeout", .n 0),
    (st "packetsize", .n 8000),
    (st "multisubnetfailover", .b false),
    (st "connectretrycount", .n 1),
    (st "connectretryinterval", .n 10)]
  php := [
    (st "port", .n 1433),
    (st "encrypt", .b false),
    (st "trustservercertificate", .b false),
    (st "connecttimeout", .n 15),
    (st "multisubnetfailover", .b false),
    (st "pooling", .b true),
    (st "mars", .b false),
    (st "connectretrycount", .n 1),
    (st "connectretryinterval", .n 10)]
  python := [
    (st "port", .n 1433),
    (st "integratedsecurity", .b false),
    (st "encrypt", .b false),
    (st "trustservercertificate", .b false),
    (st "connecttimeout", .n 15)]
  rust := [
    (st "port", .n 1433),
    (st "integratedsecurity", .b false),
    (st "trustservercertificate", .b false),
    (st "connecttimeout", .n 15)]

set_option maxRecDepth 40000

/-- The synonym-index literal is exactly the table `buildSynonymMaps`
derives from the registry. -/
theorem synTables_builds : synTables = buildSynTables := by decide

/-- The defaults-index literal is exactly the table `buildDefaultMaps`
derives from the registry. -/
theorem defTables_builds : defTables = buildDefTables := by decide

/-- `resolveKeyword(keywordName, driver?)`: driver-scoped lookup first
when a driver is given, global fallback second. -/
def resolveKeyword (keywordName : Str) (driver : Option DriverT := none) : Option Str :=
  let normalized := normKeyL keywordName
  match driver with
  | some d =>
    match (synTables.get d).lookup normalized with
    | some v => some v
    | none => synTables.global.lookup normalized
  | none => synTables.global.lookup normalized

/-- `isKnownKeyword(keywordName, driver?)`. -/
def isKnownKeyword (keywordName : Str) (driver : Option DriverT := none) : Bool :=
  (resolveKeyword keywordName driver).isSome

/-- `getDefaultValue(keywordId, driver)`. -/
def getDefaultValue (keywordId : Str) (driver : DriverT) : Option DefVal :=
  (defTables.get driver).lookup keywordId

/-- JS `String(n)` for a natural number. -/
def natStr (n : Nat) : Str := (toString n).data

/-- JS `String(value)` on a typed default value. -/
def defValToString : DefVal → Str
  | .s v => v
  | .b true => st "true"
  | .b false => st "false"
  | .n v => natStr v

/-- `normalizeBooleanValue(value)`: the shared boolean vocabulary.
Booleans pass through, numbers compare against zero, strings are
lower-cased, trimmed and matched against the true/false word lists. -/
def normalizeBooleanValue : DefVal → Option Bool
  | .b v => some v
  | .n v => some (decide (v ≠ 0))
  | .s v =>
    let lower := jsTrimL (lowerL v)
    if [st "true", st "yes", st "1", st "on", st "sspi"].contains lower then some true
    else if [st "false", st "no", st "0", st "off"].contains lower then some false
    else none

/-- `formatBooleanForDriver(value, driver)`: each driver's canonical
boolean spelling. -/
def formatBooleanForDriver (value : Bool) : DriverT → Str
  | .sqlclient => if value then st "True" else st "False"
  | .odbc => if value then st "Yes" else st "No"
  | .oledb => if value then st "True" else st "False"
  | .jdbc => if value then st "true" else st "false"
  | .php => if value then st "true" else st "false"
  | .python => if value then st "True" else st "False"
  | .rust => if value then st "true" else st "false"

/-- `areValuesFunctionallyEqual(value1, value2)`: strict equality, then
typed boolean/number comparison, then the string path with the
"unspecified", "zero-equivalent" and "false-equivalent" word classes and
a final boolean-vocabulary comparison. -/
def areValuesFunctionallyEqual (value1 value2 : DefVal) : Bool :=
  if value1 = value2 then true
  else
    match value1, value2 with
    | .b a, .b b => decide (a = b)
    | .n a, .n b => decide (a = b)
    | v1, v2 =>
      let str1 := jsTrimL (lowerL (defValToString v1))
      let str2 := jsTrimL (lowerL (defValToString v2))
      if str1 = str2 then true
      else
        let unspecifiedValues := [st "undefined", st "notspecified", st "none", st ""]
        let zeroEquivValues := [st "0", st "undefined", st ""]
        let falseEquivValues := [st "false", st "no", st "0", st "off", st "undefined", st ""]
        if unspecifiedValues.contains str1 && unspecifiedValues.contains str2 then true
        else if zeroEquivValues.contains str1 && zeroEquivValues.contains str2 then true
        else if falseEquivValues.contains str1 && falseEquivValues.contains str2 then true
        else
          match normalizeBooleanValue (.s str1), normalizeBooleanValue (.s str2) with
          | some b1, some b2 => decide (b1 = b2)
          | _, _ => decide (str1 = str2)

/-- `doDefaultsDiffer(keywordId, sourceDriver, targetDriver)`: absent
defaults on both sides never differ; one absent default is compared as
the string "undefined"; present defaults are compared functionally. -/
def doDefaultsDiffer (keywordId : Str) (sourceDriver targetDriver : DriverT) : Bool :=
  match getDefaultValue keywordId sourceDriver, getDefaultValue keywordId targetDriver with
  | none, none => false
  | some sd, some td => !(areValuesFunctionallyEqual sd td)
  | sd?, td? =>
    let val1 : DefVal := match sd? with
      | none => .s (st "undefined")
      | some v => .s (defValToString v)
    let val2 : DefVal := match td? with
      | none => .s (st "undefined")
      | some v => .s (defValToString v)
    !(areValuesFunctionallyEqual val1 val2)

/-! ## `drivers/python.ts` and `drivers/rust.ts` -/

/-- `PYTHON_BLOCKED_KEYWORDS`: the Python driver's restricted allowlist
(the ids it blocks), including the source's `typeystemversion` spelling. -/
def PYTHON_BLOCKED_KEYWORDS : List Str :=
  [st "attachdbfilename", st "autotranslate", st "contextconnection",
   st "currentlanguage", st "enlist", st "extendedansitype",
   st "failoverpartner", st "initialcatalog", st "loadbalancetimeout",
   st "minpoolsize", st "maxpoolsize", st "multipleactiveresultsets",
   st "multisubnetfailover", st "networkaddress", st "packetsize",
   st "persistsecurityinfo", st "pooling", st "replication",
   st "transactionbinding", st "typeystemversion", st "userinstance",
   st "workstationid"]

/-- `isPythonBlockedKeyword(keyword)`. -/
def isPythonBlockedKeyword (keyword : Str) : Bool :=
  PYTHON_BLOCKED_KEYWORDS.contains (normKeyL keyword)

/-- `RUST_FIELD_MAPPINGS`: canonical id to Rust struct field path. -/
def RUST_FIELD_MAPPINGS : List (Str × Str) :=
  [(st "server", st "transport_context.host"),
   (st "port", st "transport_context.port"),
   (st "database", st "database"),
   (st "user", st "auth.user"),
   (st "password", st "auth.password"),
   (st "encrypt", st "encryption_options.mode"),
   (st "trustservercertificate", st "encryption_options.trust_server_certificate"),
   (st "hostnameincertificate", st "encryption_options.host_name_in_cert"),
   (st "integratedsecurity", st "auth.integrated_security"),
   (st "authentication", st "auth.authentication_method"),
   (st "connecttimeout", st "connect_timeout"),
   (st "commandtimeout", st "command_timeout"),
   (st "applicationname", st "application_name"),
   (st "trustservercertificateca", st "encryption_options.trust_cert_ca")]

/-- `getRustFieldPath(keywordId)`. -/
def getRustFieldPath (keywordId : Str) : Option Str :=
  RUST_FIELD_MAPPINGS.lookup (normKeyL keywordId)

/-! ## `translator/detector.ts` -/

/-- Detection confidence levels. -/
inductive Confidence where
  | high | medium | low | manual
deriving DecidableEq, Repr

/-- A detection outcome.  The debugging-only `matchedPattern` string is
omitted: no consumer reads it. -/
structure DetectionResult where
  driver : DriverT
  confidence : Confidence
deriving DecidableEq, Repr

/-- JS regex word characters (`\w`, relevant to `\b`). -/
def isWordChar (c : Char) : Bool :=
  ('a' ≤ c && c ≤ 'z') || ('A' ≤ c && c ≤ 'Z') || ('0' ≤ c && c ≤ '9') || c = '_'

/-- Consume `\s*`. -/
def skipWsL (l : Str) : Str := l.dropWhile jsIsSpace

/-- Match a literal, returning the rest. -/
def litM (lit l : Str) : Option Str :=
  if isPrefL lit l then some (l.drop lit.length) else none

/-- Match a token sequence with `\s*` between consecutive tokens. -/
def seqM : List Str → Str → Option Str
  | [], l => some l
  | t :: ts, l =>
    match litM t l with
    | none => none
    | some r =>
      match ts with
      | [] => some r
      | _ :: _ => seqM ts (skipWsL r)

/-- Word-boundary condition for a match starting on a word character:
the position is at the start or preceded by a non-word character. -/
def bOk : Option Char → Bool
  | none => true
  | some c => !(isWordChar c)

/-- Search every position, tracking the preceding character for `\b`. -/
def scanBAux (p : Str → Bool) (prev : Option Char) : Str → Bool
  | [] => bOk prev && p []
  | c :: rest => (bOk prev && p (c :: rest)) || scanBAux p (some c) rest

/-- Unanchored search with a word boundary before the match. -/
def scanB (p : Str → Bool) (l : Str) : Bool := scanBAux p none l

/-- Unanchored search without a boundary condition. -/
def scanA (p : Str → Bool) : Str → Bool
  | [] => p []
  | c :: rest => p (c :: rest) || scanA p rest

/-- Test for `\bW1\s*W2...\s*=` on lower-cased input. -/
def reKeyEq (words : List Str) (ll : Str) : Bool :=
  scanB (fun l => (seqM (words ++ [st "="]) l).isSome) ll

/-- Test for the ODBC `Driver={...SQL Server...}` signature: after
`driver\s*=\s*\x7b`, the run of non-`\x7d` characters must be closed by a
`\x7d` and contain `sql\s*server`. -/
def reOdbcDriverCurly (ll : Str) : Bool :=
  scanB (fun l =>
    match seqM [st "driver", st "=", st "\x7b"] l with
    | none => false
    | some rest =>
      let seg := rest.takeWhile (fun c => c != '\x7d')
      decide (seg.length < rest.length) &&
        scanA (fun s => (seqM [st "sql", st "server"] s).isSome) seg) ll

/-- Test for `\bDriver\s*=\s*\x7b?ODBC\s*Driver\s*\d+`. -/
def reOdbcDriverVersion (ll : Str) : Bool :=
  scanB (fun l =>
    match seqM [st "driver", st "="] l with
    | none => false
    | some r0 =>
      let r1 := skipWsL r0
      let r2 := match r1 with
        | '\x7b' :: tl => tl
        | _ => r1
      match seqM [st "odbc", st "driver"] r2 with
      | none => false
      | some r3 => !((skipWsL r3).takeWhile Char.isDigit).isEmpty) ll

/-- Test for `\bDriver\s*=\s*\x7b?SQL\s*Server\s*Native\s*Client`. -/
def reNativeClient (ll : Str) : Bool :=
  scanB (fun l =>
    match seqM [st "driver", st "="] l with
    | none => false
    | some r0 =>
      let r1 := skipWsL r0
      let r2 := match r1 with
        | '\x7b' :: tl => tl
        | _ => r1
      (seqM [st "sql", st "server", st "native", st "client"] r2).isSome) ll

/-- Test for `\bProvider\s*=\s*NAME`. -/
def reProviderIs (prov : Str) (ll : Str) : Bool :=
  scanB (fun l => (seqM [st "provider", st "=", prov] l).isSome) ll

/-- Test for the case-sensitive Rust marker `ClientContext\s*\x7b`. -/
def reClientContext (l : Str) : Bool :=
  scanA (fun s => (seqM [st "ClientContext", st "\x7b"] s).isSome) l

/-- Test for the case-sensitive Rust marker `transport_context\s*:`. -/
def reTransportCtx (l : Str) : Bool :=
  scanA (fun s => (seqM [st "transport_context", st ":"] s).isSome) l

/-- The ordered signature rules of `DETECTION_PATTERNS`: the first match
wins with its fixed confidence. -/
def sigDetect (trimmed : Str) : Option DetectionResult :=
  let ll := lowerL trimmed
  if isPrefL (st "jdbc:sqlserver://") ll then some ⟨.jdbc, .high⟩
  else if reOdbcDriverCurly ll then some ⟨.odbc, .high⟩
  else if reOdbcDriverVersion ll then some ⟨.odbc, .high⟩
  else if reNativeClient ll then some ⟨.odbc, .high⟩
  else if reProviderIs (st "msoledbsql") ll then some ⟨.oledb, .high⟩
  else if reProviderIs (st "sqloledb") ll then some ⟨.oledb, .high⟩
  else if reProviderIs (st "sqlncli") ll then some ⟨.oledb, .high⟩
  else if reClientContext trimmed then some ⟨.rust, .high⟩
  else if reTransportCtx trimmed then some ⟨.rust, .high⟩
  else if containsSubL (st "mssql+pyodbc://") ll then some ⟨.python, .high⟩
  else if reKeyEq [st "integrated", st "security"] ll then some ⟨.sqlclient, .high⟩
  else if reKeyEq [st "trust", st "server", st "certificate"] ll then some ⟨.sqlclient, .medium⟩
  else if reKeyEq [st "multipleactiveresultsets"] ll then some ⟨.sqlclient, .high⟩
  else if reKeyEq [st "application", st "name"] ll then some ⟨.sqlclient, .medium⟩
  else if reKeyEq [st "logintimeout"] ll then some ⟨.php, .medium⟩
  else if reKeyEq [st "connectionpooling"] ll then some ⟨.php, .medium⟩
  else if reKeyEq [st "trusted_connection"] ll then some ⟨.odbc, .medium⟩
  else if reKeyEq [st "mars_connection"] ll then some ⟨.odbc, .medium⟩
  else none

/-- The per-driver indicator scores of `analyzeKeywords`, on the
lower-cased input. -/
def scoreOf (ll : Str) : DriverT → Nat
  | .sqlclient =>
    (if reKeyEq [st "user", st "id"] ll then 2 else 0) +
    (if reKeyEq [st "data", st "source"] ll then 1 else 0) +
    (if reKeyEq [st "initial", st "catalog"] ll then 1 else 0) +
    (if reKeyEq [st "persist", st "security", st "info"] ll then 2 else 0)
  | .odbc =>
    (if reKeyEq [st "uid"] ll then 1 else 0) +
    (if reKeyEq [st "pwd"] ll then 1 else 0) +
    (if reKeyEq [st "dsn"] ll then 3 else 0)
  | .oledb => if reKeyEq [st "ole", st "db", st "services"] ll then 3 else 0
  | .jdbc =>
    (if containsSubL (st "databasename=") ll then 2 else 0) +
    (if containsSubL (st "logintimeout=") ll then 1 else 0)
  | .php =>
    (if containsSubL (st "returnvaluesonnulls=") ll then 2 else 0) +
    (if containsSubL (st "scrollablecursor=") ll then 2 else 0)
  | .python => if containsSubL (st "mssql+pyodbc") ll then 3 else 0
  | .rust => if containsSubL (st "to_string()") ll then 3 else 0

/-- `analyzeKeywords(input)`: sum the indicator scores, pick the highest
with a strict-improvement loop seeded at (0, sqlclient), and grade the
confidence by the fixed thresholds. -/
def analyzeKeywords (input : Str) : DetectionResult :=
  let ll := lowerL input
  let pick := allDrivers.foldl
    (fun acc d => if scoreOf ll d > acc.1 then (scoreOf ll d, d) else acc)
    (0, DriverT.sqlclient)
  let conf : Confidence := if pick.1 ≥ 5 then .high else if pick.1 ≥ 3 then .medium else .low
  ⟨pick.2, conf⟩

/-- `detect(input)`: first signature rule in priority order, else the
keyword-frequency fallback. -/
def detect (input : Str) : DetectionResult :=
  let trimmed := jsTrimL input
  match sigDetect trimmed with
  | some r => r
  | none => analyzeKeywords trimmed

/-! ## `translator/parser.ts` -/

/-- Parse error codes. -/
inductive ParseErrorCode where
  | UNMATCHED_QUOTE | UNMATCHED_BRACE | INVALID_SYNTAX
  | EMPTY_INPUT | UNRECOGNIZED_FORMAT | INPUT_TOO_LARGE
deriving DecidableEq, Repr

/-- A parse error with optional position and suggestion. -/
structure ParseError where
  code : ParseErrorCode
  message : Str
  position : Option (Nat × Nat) := none
  suggestion : Option Str := none
deriving DecidableEq, Repr

/-- Parse warning codes. -/
inductive ParseWarningCode where
  | UNKNOWN_KEYWORD | DUPLICATE_KEYWORD | MISSING_REQUIRED
  | DEPRECATED_KEYWORD | CONFLICTING_KEYWORDS
deriving DecidableEq, Repr

/-- A parse warning with optional keyword and position. -/
structure ParseWarning where
  code : ParseWarningCode
  message : Str
  keyword : Option Str := none
  position : Option (Nat × Nat) := none
deriving DecidableEq, Repr

/-- One parsed value with its metadata. -/
structure ParsedValue where
  raw : Str
  normalized : Str
  position : Nat × Nat
  wasQuoted : Bool
  originalKeyword : Option Str := none
deriving DecidableEq, Repr

/-- JDBC URL components extracted by the pre-extraction step. -/
structure JdbcUrlComponents where
  host : Str
  port : Nat
  instanceName : Option Str := none
  properties : List (Str × Str) := []
deriving DecidableEq, Repr

/-- The result of parsing one input. -/
structure ParsedConnectionString where
  driver : DriverT
  confidence : Confidence
  pairs : List (Str × ParsedValue)
  originalInput : Str
  errors : List ParseError
  warnings : List ParseWarning
  jdbcUrl : Option JdbcUrlComponents := none
deriving DecidableEq, Repr

/-- `MAX_CONNECTION_STRING_SIZE`: 32 KiB. -/
def MAX_CONNECTION_STRING_SIZE : Nat := 32 * 1024

/-- UTF-8 byte count of one character (what `TextEncoder` produces per
code point; code points above 0xFFFF take four bytes). -/
def utf8Size (c : Char) : Nat :=
  if c.toNat < 0x80 then 1
  else if c.toNat < 0x800 then 2
  else if c.toNat < 0x10000 then 3
  else 4

/-- `new TextEncoder().encode(input).length`. -/
def utf8LenL (l : Str) : Nat := (l.map utf8Size).sum

/-- The tokenizer's running state: current key and value buffers, the
position bookkeeping, quote and brace context, and the accumulated raw
pairs and errors. -/
structure TokSt where
  curKey : Str
  curVal : Str
  keyStart : Nat
  valueStart : Nat
  quoteChar : Char
  braceDepth : Nat
  pairs : List (Str × Str × Nat × Nat)
  errors : List ParseError
deriving Repr

/-- Tokenizer modes (`ParserState`). -/
inductive PMode where
  | key | value | quoted | braced | done
deriving DecidableEq, Repr

/-- The `UNMATCHED_QUOTE` error as the tokenizer builds it. -/
def unmatchedQuoteErr (valueStart i : Nat) (q : Char) : ParseError :=
  { code := .UNMATCHED_QUOTE,
    message := st "Unclosed quote starting at position " ++ natStr valueStart,
    position := some (valueStart, i),
    suggestion := some (st "Add closing " ++ [q] ++ st " character") }

/-- The `UNMATCHED_BRACE` error as the tokenizer builds it. -/
def unmatchedBraceErr (valueStart i : Nat) : ParseError :=
  { code := .UNMATCHED_BRACE,
    message := st "Unclosed brace starting at position " ++ natStr valueStart,
    position := some (valueStart, i),
    suggestion := some (st "Add closing \x7d character") }

/-- The loop's final iteration: the virtual terminating delimiter at
position `i = length`, with `isEnd` true. -/
def smEnd : PMode → TokSt → Nat → TokSt
  | .key, s, _ => s
  | .value, s, i =>
    if s.curKey ≠ [] then
      { s with pairs := s.pairs ++ [(s.curKey, jsTrimL s.curVal, s.keyStart, i)] }
    else s
  | .quoted, s, i =>
    let s := { s with curVal := s.curVal ++ [';'] }
    let s := { s with errors := s.errors ++ [unmatchedQuoteErr s.valueStart i s.quoteChar] }
    if s.curKey ≠ [] then
      { s with pairs := s.pairs ++ [(s.curKey, s.curVal, s.keyStart, i)] }
    else s
  | .braced, s, i =>
    let s := { s with curVal := s.curVal ++ [';'] }
    if s.braceDepth > 0 then
      let s := { s with errors := s.errors ++ [unmatchedBraceErr s.valueStart i] }
      if s.curKey ≠ [] then
        { s with pairs := s.pairs ++ [(s.curKey, s.curVal, s.keyStart, i)] }
      else s
    else s
  | .done, s, _ => s

/-- One left-to-right scan of the quote/brace-aware state machine.
Doubled quote or closing-brace delimiters consume two characters. -/
def smRun : PMode → TokSt → Nat → Str → TokSt
  | mode, s, i, [] => smEnd mode s i
  | .key, s, i, c :: rest =>
    if c = '=' then
      smRun .value { s with curKey := jsTrimL s.curKey, valueStart := i + 1 } (i + 1) rest
    else if c = ';' then
      smRun .key { s with curKey := [] } (i + 1) rest
    else
      let s := if s.curKey = [] then { s with keyStart := i } else s
      smRun .key { s with curKey := s.curKey ++ [c] } (i + 1) rest
  | .value, s, i, c :: rest =>
    if c = '\x22' ∨ c = '\x27' then
      smRun .quoted { s with quoteChar := c, curVal := s.curVal ++ [c] } (i + 1) rest
    else if c = '\x7b' then
      smRun .braced { s with braceDepth := 1, curVal := s.curVal ++ [c] } (i + 1) rest
    else if c = ';' then
      let s :=
        if s.curKey ≠ [] then
          { s with pairs := s.pairs ++ [(s.curKey, jsTrimL s.curVal, s.keyStart, i)] }
        else s
      smRun .key { s with curKey := [], curVal := [], keyStart := i + 1 } (i + 1) rest
    else smRun .value { s with curVal := s.curVal ++ [c] } (i + 1) rest
  | .quoted, s, i, c :: rest =>
    let s := { s with curVal := s.curVal ++ [c] }
    if c = s.quoteChar then
      match rest with
      | c2 :: rest2 =>
        if c2 = s.quoteChar then
          smRun .quoted { s with curVal := s.curVal ++ [c2] } (i + 2) rest2
        else smRun .value s (i + 1) (c2 :: rest2)
      | [] => smRun .value s (i + 1) []
    else smRun .quoted s (i + 1) rest
  | .braced, s, i, c :: rest =>
    let s := { s with curVal := s.curVal ++ [c] }
    if c = '\x7b' then
      smRun .braced { s with braceDepth := s.braceDepth + 1 } (i + 1) rest
    else if c = '\x7d' then
      match rest with
      | c2 :: rest2 =>
        if c2 = '\x7d' then
          smRun .braced { s with curVal := s.curVal ++ [c2] } (i + 2) rest2
        else
          let d := s.braceDepth - 1
          if d = 0 then smRun .value { s with braceDepth := d } (i + 1) (c2 :: rest2)
          else smRun .braced { s with braceDepth := d } (i + 1) (c2 :: rest2)
      | [] =>
        let d := s.braceDepth - 1
        if d = 0 then smRun .value { s with braceDepth := d } (i + 1) []
        else smRun .braced { s with braceDepth := d } (i + 1) []
    else smRun .braced s (i + 1) rest
  | .done, s, i, _ :: rest => smRun .done s (i + 1) rest

/-- `parseKeyValuePairs(input)`: the raw pairs and tokenizer errors. -/
def parseKeyValuePairs (input : Str) : (List (Str × Str × Nat × Nat)) × List ParseError :=
  let s := smRun .key
    { curKey := [], curVal := [], keyStart := 0, valueStart := 0,
      quoteChar := ' ', braceDepth := 0, pairs := [], errors := [] } 0 input
  (s.pairs, s.errors)

/-- The mathematical value of an all-digit run. `parseInt(ds, 10)`
returns exactly this value below `2 ^ 53`; above it the double loses
precision, so the port theorems restrict themselves to that exact
regime. -/
def natOfDigits (ds : Str) : Nat :=
  ds.foldl (fun acc c => acc * 10 + (c.toNat - '0'.toNat)) 0

/-- The JavaScript line terminators: `.` in a non-dotAll regex matches
every character except these four. -/
def isLineTerminator (c : Char) : Bool :=
  c = '\n' ∨ c = '\r' ∨ c = '\u2028' ∨ c = '\u2029'

/-- The anchored JDBC URL pattern
`jdbc:sqlserver://HOST(:PORT)?(;PROPS)?` (case-insensitive on the
prefix): the host is the run before the first colon or semicolon and
must be non-empty; an optional `:digits` port must be followed by the
end or a semicolon; everything after a semicolon is the property tail,
which `(.*)` accepts only when it is free of line terminators. -/
def jdbcUrlMatch (input : Str) : Option (Str × Option Nat × Option Str) :=
  if isPrefL (st "jdbc:sqlserver://") (lowerL input) then
    let rest := input.drop 17
    let host := rest.takeWhile (fun c => (c != ':') && (c != ';'))
    let rest2 := rest.drop host.length
    if host.isEmpty then none
    else
      match rest2 with
      | [] => some (host, none, none)
      | ':' :: tl =>
        let ds := tl.takeWhile Char.isDigit
        let rest3 := tl.drop ds.length
        if ds.isEmpty then none
        else
          match rest3 with
          | [] => some (host, some (natOfDigits ds), none)
          | ';' :: props =>
            if props.all (fun c => !(isLineTerminator c)) then
              some (host, some (natOfDigits ds), some props)
            else none
          | _ => none
      | ';' :: props =>
        if props.all (fun c => !(isLineTerminator c)) then
          some (host, none, some props)
        else none
      | _ => none
  else none

/-- The output of `parseJdbcUrl`. -/
structure JdbcParseOut where
  jdbcUrl : JdbcUrlComponents
  propertyString : Str
  errors : List ParseError
deriving Repr

/-- `parseJdbcUrl(input)`: split a JDBC URL into components; a failed
match yields the `INVALID_SYNTAX` error, an empty host, default port
1433 and the whole input as property tail. -/
def parseJdbcUrl (input : Str) : JdbcParseOut :=
  match jdbcUrlMatch input with
  | none =>
    { jdbcUrl := { host := [], port := 1433 },
      propertyString := input,
      errors := [{ code := .INVALID_SYNTAX,
                   message := st "Invalid JDBC URL format",
                   suggestion := some (st "Use format: jdbc:sqlserver://host:port;property=value;...") }] }
  | some (host, port?, props?) =>
    { jdbcUrl := { host := host, port := port?.getD 1433 },
      propertyString := props?.getD [],
      errors := [] }

/-- The `DUPLICATE_KEYWORD` warning as the parser builds it. -/
def dupWarn (rawKey : Str) (pos : Nat × Nat) : ParseWarning :=
  { code := .DUPLICATE_KEYWORD,
    message := st "Duplicate keyword '" ++ rawKey ++ st "' ignored (first occurrence used)",
    keyword := some rawKey,
    position := some pos }

/-- The `UNKNOWN_KEYWORD` warning as the parser builds it. -/
def unknownWarn (rawKey : Str) (pos : Nat × Nat) : ParseWarning :=
  { code := .UNKNOWN_KEYWORD,
    message := st "Unknown keyword '" ++ rawKey ++ st "' - may not translate correctly",
    keyword := some rawKey,
    position := some pos }

/-- The outcome of the per-pair processing loop. -/
structure ProcOut where
  pairs : List (Str × ParsedValue)
  warnings : List ParseWarning
deriving DecidableEq, Repr

/-- The parser's per-pair loop: resolve each raw key to a canonical id
(driver-scoped, falling back to the whitespace-folded key), drop
duplicates with a warning, flag unknown keys, and store the trimmed or
de-escaped value. -/
def processPairs (driver : DriverT) :
    List (Str × Str × Nat × Nat) → List Str → List (Str × ParsedValue) →
    List ParseWarning → ProcOut
  | [], _, pairs, warns => ⟨pairs, warns⟩
  | (rawKey, rawValue, ps, pe) :: rest, seen, pairs, warns =>
    let normalizedKey := normKeyL rawKey
    let canonicalId := (resolveKeyword rawKey (some driver)).getD normalizedKey
    if seen.contains canonicalId then
      processPairs driver rest seen pairs (warns ++ [dupWarn rawKey (ps, pe)])
    else
      let seen := seen ++ [canonicalId]
      let warns :=
        if !(isKnownKeyword rawKey (some driver)) then
          warns ++ [unknownWarn rawKey (ps, pe)]
        else warns
      let wasQuoted := isQuotedOrBraced rawValue
      let normalized := if wasQuoted then unescapeValue rawValue else jsTrimL rawValue
      processPairs driver rest seen
        (mapSet pairs canonicalId
          { raw := rawValue, normalized := normalized, position := (ps, pe),
            wasQuoted := wasQuoted, originalKeyword := some rawKey })
        warns

/-- `parse(input)`: size guard, empty guard, driver detection, JDBC URL
pre-extraction with the extracted server injected under the canonical
`server` id, tokenization, and the per-pair processing loop. -/
def parse (input : Str) : ParsedConnectionString :=
  if utf8LenL input > MAX_CONNECTION_STRING_SIZE then
    { driver := .sqlclient, confidence := .low, pairs := [], originalInput := input,
      errors := [{ code := .INPUT_TOO_LARGE,
                   message := st "Connection string exceeds maximum size of " ++
                     natStr (MAX_CONNECTION_STRING_SIZE / 1024) ++ st "KB",
                   suggestion := some (st "Reduce the connection string length") }],
      warnings := [] }
  else
    let trimmedInput := jsTrimL input
    if trimmedInput = [] then
      { driver := .sqlclient, confidence := .low, pairs := [], originalInput := input,
        errors := [{ code := .EMPTY_INPUT,
                     message := st "Connection string is empty",
                     suggestion := some (st "Provide a valid connection string") }],
        warnings := [] }
    else
      let detection := detect trimmedInput
      let pre :
          Option JdbcUrlComponents × Str × List ParseError × List (Str × ParsedValue) :=
        if detection.driver = .jdbc ∧ isPrefL (st "jdbc:sqlserver://") (lowerL trimmedInput) then
          let jp := parseJdbcUrl trimmedInput
          let pairs0 :=
            if jp.jdbcUrl.host ≠ [] then
              let serverValue :=
                if jp.jdbcUrl.port ≠ 0 ∧ jp.jdbcUrl.port ≠ 1433 then
                  jp.jdbcUrl.host ++ [','] ++ natStr jp.jdbcUrl.port
                else jp.jdbcUrl.host
              [(st "server",
                ({ raw := serverValue, normalized := serverValue,
                   position := (17, 17 + serverValue.length), wasQuoted := false,
                   originalKeyword := some (st "server") } : ParsedValue))]
            else []
          (some jp.jdbcUrl, jp.propertyString, jp.errors, pairs0)
        else (none, trimmedInput, [], [])
      let tk := parseKeyValuePairs pre.2.1
      let processed := processPairs detection.driver tk.1 [] pre.2.2.2 []
      { driver := detection.driver, confidence := detection.confidence,
        pairs := processed.pairs, originalInput := input,
        errors := pre.2.2.1 ++ tk.2, warnings := processed.warnings,
        jdbcUrl := pre.1 }

/-! ## `translator/mapper.ts` -/

/-- Reasons a keyword cannot be translated. -/
inductive UntranslatableReason where
  | NOT_SUPPORTED | DRIVER_SPECIFIC | UNKNOWN | DEPRECATED | BLOCKED_ALLOWLIST
deriving DecidableEq, Repr

/-- A successfully translated keyword. -/
structure TranslatedKeyword where
  sourceKeyword : Str
  sourceValue : Str
  targetKeyword : Str
  targetValue : Str
  valueTransformed : Bool
deriving DecidableEq, Repr

/-- A keyword that could not be translated. -/
structure UntranslatableKeyword where
  keyword : Str
  value : Str
  reason : UntranslatableReason
deriving DecidableEq, Repr

/-- Translation warning codes. -/
inductive TranslationWarningCode where
  | KEYWORD_OMITTED | VALUE_NORMALIZED | DEFAULT_DIFFERS | BEHAVIOR_DIFFERS | PYTHON_BLOCKED
deriving DecidableEq, Repr

/-- A translation warning. -/
structure TranslationWarning where
  code : TranslationWarningCode
  message : Str
  keyword : Option Str := none
deriving DecidableEq, Repr

/-- Translation error codes. -/
inductive TranslationErrorCode where
  | PARSE_FAILED | REQUIRED_MISSING | INVALID_TARGET
deriving DecidableEq, Repr

/-- A translation error. -/
structure TranslationError where
  code : TranslationErrorCode
  message : Str
deriving DecidableEq, Repr

/-- The mapper's result. -/
structure MappingResult where
  translatedKeywords : List TranslatedKeyword
  untranslatableKeywords : List UntranslatableKeyword
  warnings : List TranslationWarning
  keywordOrder : List Str
  mappedPairs : List (Str × Str)
deriving DecidableEq, Repr

/-- The public translation outcome. -/
structure TranslationResult where
  success : Bool
  targetDriver : DriverT
  connectionString : Str
  translatedKeywords : List TranslatedKeyword
  untranslatableKeywords : List UntranslatableKeyword
  warnings : List TranslationWarning
  errors : List TranslationError
deriving DecidableEq, Repr

/-- Output formatting styles. -/
inductive Fmt where
  | compact | readable
deriving DecidableEq, Repr

/-- Keyword ordering policies. -/
inductive KwOrder where
  | source | canonical | alphabetical
deriving DecidableEq, Repr

/-- `TranslationOptions`; absent fields model `undefined`. -/
structure TranslationOptions where
  includeDefaults : Option Bool := none
  preserveUnknown : Option Bool := none
  preferShortNames : Option Bool := none
  formatting : Option Fmt := none
  keywordOrder : Option KwOrder := none
deriving DecidableEq, Repr

/-- JS `options?.preserveUnknown` truthiness. -/
def optPreserveUnknown (o : Option TranslationOptions) : Bool :=
  match o with
  | some t => t.preserveUnknown.getD false
  | none => false

/-- JS `options?.keywordOrder`. -/
def optKeywordOrder (o : Option TranslationOptions) : Option KwOrder :=
  o.bind (fun t => t.keywordOrder)

/-- The string tag of a driver, as interpolated into messages. -/
def driverTag : DriverT → Str
  | .sqlclient => st "sqlclient"
  | .odbc => st "odbc"
  | .oledb => st "oledb"
  | .jdbc => st "jdbc"
  | .php => st "php"
  | .python => st "python"
  | .rust => st "rust"

/-- `getUntranslatableReason(keyword, targetDriver, sourceDriver)`:
Python-allowlist block first, then target deprecation, then the
single-supporting-driver test, then the default fallback. -/
def getUntranslatableReason (keyword : Keyword) (targetDriver sourceDriver : DriverT) :
    UntranslatableReason :=
  if targetDriver = .python ∧ isPythonBlockedKeyword keyword.id then .BLOCKED_ALLOWLIST
  else
    let targetConfig := keyword.drivers.get targetDriver
    if (targetConfig.map (fun c => c.deprecated)).getD false then .DEPRECATED
    else
      let supportedDrivers := allDrivers.filter (fun d =>
        match keyword.drivers.get d with
        | some c => c.name.isSome
        | none => false)
      if supportedDrivers = [sourceDriver] then .DRIVER_SPECIFIC
      else .NOT_SUPPORTED

/-- JS `parsedValue.originalKeyword || canonicalId` (empty string is
falsy). -/
def origOrId (pv : ParsedValue) (canonicalId : Str) : Str :=
  match pv.originalKeyword with
  | some s => if s = [] then canonicalId else s
  | none => canonicalId

/-- The mapper's accumulator over the per-pair loop. -/
structure MapAcc where
  translatedKeywords : List TranslatedKeyword
  untranslatableKeywords : List UntranslatableKeyword
  warnings : List TranslationWarning
  keywordOrder : List Str
  mappedPairs : List (Str × Str)
deriving Repr

/-- One iteration of the mapper's per-pair loop: unknown-keyword policy,
the JDBC server special case, untranslatability classification with the
Python-blocked warning, and enum/boolean value transformation. -/
def mapStep (parsedDriver targetDriver : DriverT) (opts : Option TranslationOptions)
    (acc : MapAcc) (entry : Str × ParsedValue) : MapAcc :=
  let canonicalId := entry.1
  let parsedValue := entry.2
  let acc := { acc with keywordOrder := acc.keywordOrder ++ [canonicalId] }
  match getKeywordById canonicalId with
  | none =>
    if optPreserveUnknown opts then
      { acc with
        translatedKeywords := acc.translatedKeywords ++
          [{ sourceKeyword := origOrId parsedValue canonicalId,
             sourceValue := parsedValue.normalized,
             targetKeyword := canonicalId,
             targetValue := parsedValue.normalized,
             valueTransformed := false }],
        mappedPairs := mapSet acc.mappedPairs canonicalId parsedValue.normalized }
    else
      { acc with untranslatableKeywords := acc.untranslatableKeywords ++
          [{ keyword := origOrId parsedValue canonicalId,
             value := parsedValue.normalized, reason := .UNKNOWN }] }
  | some keyword =>
    let targetConfig? := keyword.drivers.get targetDriver
    let nm? := targetConfig?.bind (fun c => c.name)
    match targetConfig?, nm? with
    | some cfg, some nm =>
      let tv :=
        if cfg.type = .enum ∧ cfg.enumValues ≠ [] then
          match normalizeBooleanValue (.s parsedValue.normalized) with
          | some true => (cfg.enumValues.headD [], true)
          | _ => (parsedValue.normalized, false)
        else if cfg.type = .boolean then
          match normalizeBooleanValue (.s parsedValue.normalized) with
          | some b =>
            let v := formatBooleanForDriver b targetDriver
            (v, decide (lowerL v ≠ lowerL parsedValue.normalized))
          | none => (parsedValue.normalized, false)
        else (parsedValue.normalized, false)
      { acc with
        translatedKeywords := acc.translatedKeywords ++
          [{ sourceKeyword := origOrId parsedValue canonicalId,
             sourceValue := parsedValue.normalized,
             targetKeyword := nm, targetValue := tv.1,
             valueTransformed := tv.2 }],
        mappedPairs := mapSet acc.mappedPairs nm tv.1 }
    | _, _ =>
      if targetDriver = .jdbc ∧ canonicalId = st "server" then
        { acc with mappedPairs := mapSet acc.mappedPairs (st "server") parsedValue.normalized }
      else
        let reason := getUntranslatableReason keyword targetDriver parsedDriver
        let acc := { acc with untranslatableKeywords := acc.untranslatableKeywords ++
          [{ keyword := origOrId parsedValue canonicalId,
             value := parsedValue.normalized, reason := reason }] }
        if targetDriver = .python ∧ isPythonBlockedKeyword canonicalId then
          { acc with warnings := acc.warnings ++
            [{ code := .PYTHON_BLOCKED,
               message := st "Keyword '" ++ keyword.displayName ++
                 st "' is blocked by Python driver's restricted allowlist",
               keyword := some canonicalId }] }
        else acc

/-- Code-point lexicographic order on strings: the model of the
`localeCompare`-based alphabetical comparator (locale collation is
modelled as code-point comparison). -/
def lexLe : Str → Str → Bool
  | [], _ => true
  | _ :: _, [] => false
  | a :: as', b :: bs' =>
    if a.toNat < b.toNat then true
    else if b.toNat < a.toNat then false
    else lexLe as' bs'

/-- Registry definition-order index of a keyword id (`indexOf`, -1 when
absent). -/
def canonicalIdx (key : Str) : Int :=
  match (keywords.map (fun k => k.id)).indexOf? key with
  | some i => Int.ofNat i
  | none => -1

/-- Stable sort of the translated keywords by target keyword name
(`keywordOrder: 'alphabetical'`). -/
def sortAlpha (l : List TranslatedKeyword) : List TranslatedKeyword :=
  l.mergeSort (fun a b => lexLe a.targetKeyword b.targetKeyword)

/-- Stable sort by registry definition order of the resolved source
keyword (`keywordOrder: 'canonical'`). -/
def sortCanonical (l : List TranslatedKeyword) : List TranslatedKeyword :=
  l.mergeSort (fun a b =>
    canonicalIdx ((resolveKeyword a.sourceKeyword none).getD a.sourceKeyword) ≤
    canonicalIdx ((resolveKeyword b.sourceKeyword none).getD b.sourceKeyword))

/-- `mapKeywords(parsed, targetDriver, options?)`: the per-pair loop in
source order, the optional reordering, and the default-divergence pass
over registry keywords the user did not specify. -/
def mapKeywords (parsed : ParsedConnectionString) (targetDriver : DriverT)
    (options : Option TranslationOptions) : MappingResult :=
  let acc := parsed.pairs.foldl (mapStep parsed.driver targetDriver options)
    { translatedKeywords := [], untranslatableKeywords := [], warnings := [],
      keywordOrder := [], mappedPairs := [] }
  let translatedKeywords :=
    match optKeywordOrder options with
    | some .alphabetical => sortAlpha acc.translatedKeywords
    | some .canonical => sortCanonical acc.translatedKeywords
    | _ => acc.translatedKeywords
  let specifiedKeywords := acc.keywordOrder
  let warnings := keywords.foldl (fun ws k =>
    if specifiedKeywords.contains k.id then ws
    else if doDefaultsDiffer k.id parsed.driver targetDriver then
      let sourceOk := match k.drivers.get parsed.driver with
        | some c => c.name.isSome
        | none => true
      let targetOk := match k.drivers.get targetDriver with
        | some c => c.name.isSome
        | none => true
      if sourceOk && targetOk then
        let sourceVal := match getDefaultValue k.id parsed.driver with
          | some v => defValToString v
          | none => st "undefined"
        let targetVal := match getDefaultValue k.id targetDriver with
          | some v => defValToString v
          | none => st "undefined"
        ws ++ [{ code := .DEFAULT_DIFFERS,
                 message := st "'" ++ k.displayName ++ st "' default differs: " ++
                   driverTag parsed.driver ++ st "=" ++ sourceVal ++ st ", " ++
                   driverTag targetDriver ++ st "=" ++ targetVal,
                 keyword := some k.id }]
      else ws
    else ws) acc.warnings
  { translatedKeywords := translatedKeywords,
    untranslatableKeywords := acc.untranslatableKeywords,
    warnings := warnings,
    keywordOrder := acc.keywordOrder,
    mappedPairs := acc.mappedPairs }

/-! ## `translator/generator.ts` -/

/-- The delimiter between pairs (`'; '` under readable formatting). -/
def sepOf (options : Option TranslationOptions) : Str :=
  if (options.bind (fun t => t.formatting)) = some Fmt.readable then st "; " else st ";"

/-- `formatValue(value, driver)`: escape only when needed. -/
def formatValue (value : Str) (driver : DriverT) : Str :=
  if needsEscaping value then escapeValue value driver else value

/-- `formatValueForJdbc(value)`: brace-escape when needed. -/
def formatValueForJdbc (value : Str) : Str :=
  if needsEscaping value then
    '\x7b' :: (replCharL '\x7d' ['\x7d', '\x7d'] value) ++ ['\x7d']
  else value

/-- `generateKeyValue(mapped, driver, options?)`: flat `key=value;`
output with the ODBC driver-spec injection and the PHP prefix. -/
def generateKeyValue (mapped : MappingResult) (driver : DriverT)
    (options : Option TranslationOptions) : Str :=
  let parts : List Str :=
    if driver = .odbc then
      let hasDriver := mapped.translatedKeywords.any
        (fun kw => lowerL kw.targetKeyword == st "driver")
      if !hasDriver then [st "Driver=\x7bODBC Driver 18 for SQL Server\x7d"] else []
    else []
  let px : Str := if driver = .php then st "sqlsrv:" else []
  let parts := parts ++ mapped.translatedKeywords.map
    (fun kw => kw.targetKeyword ++ st "=" ++ formatValue kw.targetValue driver)
  px ++ List.intercalate (sepOf options) parts ++
    (if parts.length > 0 then st ";" else [])

/-- The regex `^([^:,\\]+)[,:](\d+)$` applied to the mapped server
value: host before the first separator, all-digit port to the end. -/
def jdbcPortMatch (sv : Str) : Option (Str × Nat) :=
  let h := sv.takeWhile (fun c => (c != ':') && (c != ',') && (c != '\\'))
  let rest := sv.drop h.length
  match rest with
  | sep :: tl =>
    if (sep = ':' ∨ sep = ',') ∧ h ≠ [] ∧ tl ≠ [] ∧ tl.all Char.isDigit then
      some (h, natOfDigits tl)
    else none
  | [] => none

/-- The regex `^([^\\]+)\\(.+)$` applied to the mapped server value:
host before the first backslash, instance after it. The host class
`[^\\]` admits line terminators, but the instance is matched by `.+`,
which does not, so the match fails when the tail after the first
backslash contains one. -/
def jdbcInstanceMatch (sv : Str) : Option (Str × Str) :=
  let h := sv.takeWhile (fun c => c != '\\')
  let rest := sv.drop h.length
  match rest with
  | '\\' :: tl =>
    if h ≠ [] ∧ tl ≠ [] ∧ tl.all (fun c => !(isLineTerminator c)) then some (h, tl)
    else none
  | _ => none

/-- The host, port and optional instance name `generateJdbc` derives
from the parsed server value (defaults `localhost`, 1433; an absent or
empty value is falsy). -/
def jdbcServerInfo (serverValue : Option Str) : Str × Nat × Option Str :=
  match serverValue with
  | none => (st "localhost", 1433, none)
  | some sv =>
    if sv = [] then (st "localhost", 1433, none)
    else
      match jdbcInstanceMatch sv with
      | some hi => (hi.1, 1433, some hi.2)
      | none =>
        match jdbcPortMatch sv with
        | some hp => (hp.1, hp.2, none)
        | none => (sv, 1433, none)

/-- The keyword ids excluded from the JDBC property list. -/
def serverRelatedKeywords : List Str :=
  [st "server", st "datasource", st "address", st "addr", st "networkaddress"]

/-- `generateJdbc(mapped, parsed?, options?)`: URL from the derived host
and port, properties excluding server-family keywords, and the instance
name prepended as an `instanceName=` property. -/
def generateJdbc (mapped : MappingResult) (parsed : Option ParsedConnectionString)
    (options : Option TranslationOptions) : Str :=
  let serverValue := parsed.bind (fun p =>
    (p.pairs.lookup (st "server")).map (fun pv => pv.normalized))
  let info := jdbcServerInfo serverValue
  let props := mapped.translatedKeywords.foldl (fun ps kw =>
    let canonicalId := resolveKeyword kw.sourceKeyword none
    let skip := match canonicalId with
      | some cid => serverRelatedKeywords.contains cid
      | none => false
    if skip then ps
    else ps ++ [kw.targetKeyword ++ st "=" ++ formatValueForJdbc kw.targetValue]) []
  let props := match info.2.2 with
    | some inst => (st "instanceName=" ++ inst) :: props
    | none => props
  let propsStr := List.intercalate (sepOf options) props
  st "jdbc:sqlserver://" ++ info.1 ++ st ":" ++ natStr info.2.1 ++ st ";" ++
    propsStr ++ (if propsStr ≠ [] then st ";" else [])

/-- The generator's boolean vocabulary (`parseBooleanValue`; lower-cases
but does not trim). -/
def parseBooleanValue (value : Str) : Option Bool :=
  let lower := lowerL value
  if [st "true", st "yes", st "1", st "on", st "sspi"].contains lower then some true
  else if [st "false", st "no", st "0", st "off"].contains lower then some false
  else none

/-- `getEncryptionEnumValue(value)`: the encryption-mode vocabulary. -/
def getEncryptionEnumValue (value : Str) : Option Str :=
  let lower := lowerL value
  if lower = st "true" ∨ lower = st "yes" ∨ lower = st "optional" ∨ lower = st "on" then
    some (st "EncryptionSetting::On")
  else if lower = st "mandatory" ∨ lower = st "strict" ∨ lower = st "required" then
    some (st "EncryptionSetting::Required")
  else if lower = st "false" ∨ lower = st "no" ∨ lower = st "off" then
    some (st "EncryptionSetting::Off")
  else none

/-- `escapeRustString(value)`: backslash, quote, newline, carriage
return and tab, in the source's replacement order. -/
def escapeRustString (value : Str) : Str :=
  replCharL '\t' ['\\', 't']
    (replCharL '\r' ['\\', 'r']
      (replCharL '\n' ['\\', 'n']
        (replCharL '\x22' ['\\', '\x22']
          (replCharL '\\' ['\\', '\\'] value))))

/-- `formatRustValue(value, keyword)`: boolean literal, encryption enum
variant for `mode` fields, bare integer, or a quoted escaped string with
`.to_string()`. -/
def formatRustValue (value keyword : Str) : Str :=
  match parseBooleanValue value with
  | some b =>
    if containsSubL (st "mode") keyword then
      (getEncryptionEnumValue value).getD (if b then st "true" else st "false")
    else if b then st "true" else st "false"
  | none =>
    if value ≠ [] ∧ value.all Char.isDigit then value
    else
      match (if containsSubL (st "mode") keyword then getEncryptionEnumValue value else none) with
      | some ev => ev
      | none => '\x22' :: escapeRustString value ++ ['\x22'] ++ st ".to_string()"

/-- Split a field path on dots. -/
def splitDot : Str → List Str
  | [] => [[]]
  | c :: rest =>
    let r := splitDot rest
    if c = '.' then [] :: r
    else (c :: r.headD []) :: r.tail

/-- `getStructName(fieldName)`. -/
def getStructName (fieldName : Str) : Str :=
  if fieldName = st "transport_context" then st "TransportContext::Tcp"
  else if fieldName = st "encryption_options" then st "EncryptionOptions"
  else if fieldName = st "auth" then st "AuthContext"
  else st "Unknown"

/-- Add one nested field under its top-level group, preserving group
insertion order. -/
def groupAdd : List (Str × List (Str × Str)) → Str → Str → Str →
    List (Str × List (Str × Str))
  | [], top, k, v => [(top, [(k, v)])]
  | (t, m) :: rest, top, k, v =>
    if t = top then (t, mapSet m k v) :: rest
    else (t, m) :: groupAdd rest top k v

/-- `generateRustStruct(fields, options?)`: group dotted paths into
nested struct blocks and render the `ClientContext` literal with a
trailing `..Default::default()`. -/
def generateRustStruct (fields : List (Str × Str))
    (options : Option TranslationOptions) : Str :=
  let readable := (options.bind (fun t => t.formatting)) = some Fmt.readable
  let indent : Str := if readable then st "    " else st "  "
  let nested : Str := if readable then st "        " else st "    "
  let split := fields.foldl
    (fun (acc : List (Str × List (Str × Str)) × List (Str × Str)) pv =>
      match splitDot pv.1 with
      | top :: r1 :: rtail =>
        (groupAdd acc.1 top (List.intercalate (st ".") (r1 :: rtail)) pv.2, acc.2)
      | _ => (acc.1, mapSet acc.2 pv.1 pv.2))
    ([], [])
  let lines := [st "ClientContext \x7b"]
    ++ split.2.map (fun p => indent ++ p.1 ++ st ": " ++ p.2 ++ st ",")
    ++ split.1.foldl (fun ls g =>
        ls ++ [indent ++ g.1 ++ st ": " ++ getStructName g.1 ++ st " \x7b"]
           ++ g.2.map (fun p => nested ++ p.1 ++ st ": " ++ p.2 ++ st ",")
           ++ [indent ++ st "\x7d,"]) []
    ++ [indent ++ st "..Default::default()", st "\x7d"]
  List.intercalate (st "\n") lines

/-- `generateRust(mapped, options?)`: map canonical ids to Rust field
paths and render the struct. -/
def generateRust (mapped : MappingResult) (options : Option TranslationOptions) : Str :=
  let fields := mapped.translatedKeywords.foldl (fun fs kw =>
    match resolveKeyword kw.sourceKeyword none with
    | none => fs
    | some cid =>
      match getRustFieldPath cid with
      | some path => mapSet fs path (formatRustValue kw.targetValue kw.targetKeyword)
      | none => fs) []
  generateRustStruct fields options

/-- `generate(mapped, targetDriver, options?, parsed?)`: dispatch to the
JDBC URL, Rust struct, or flat renderer. -/
def generate (mapped : MappingResult) (targetDriver : DriverT)
    (options : Option TranslationOptions)
    (parsed : Option ParsedConnectionString) : Str :=
  match targetDriver with
  | .jdbc => generateJdbc mapped parsed options
  | .rust => generateRust mapped options
  | _ => generateKeyValue mapped targetDriver options

/-! ## `translator/index.ts`: the orchestrator -/

/-- `translate(input, targetDriver, options?)`: parse, short-circuit on
parse errors mapping each to a `PARSE_FAILED` translation error, else
map and generate. -/
def translate (input : Str) (targetDriver : DriverT)
    (options : Option TranslationOptions) : TranslationResult :=
  let parsed := parse input
  if parsed.errors.length > 0 then
    { success := false, targetDriver := targetDriver, connectionString := [],
      translatedKeywords := [], untranslatableKeywords := [], warnings := [],
      errors := parsed.errors.map (fun e =>
        { code := .PARSE_FAILED, message := e.message }) }
  else
    let mapped := mapKeywords parsed targetDriver options
    let output := generate mapped targetDriver options (some parsed)
    { success := true, targetDriver := targetDriver, connectionString := output,
      translatedKeywords := mapped.translatedKeywords,
      untranslatableKeywords := mapped.untranslatableKeywords,
      warnings := mapped.warnings, errors := [] }

/-- `translateAll(input, options?)`. -/
def translateAll (input : Str) (options : Option TranslationOptions) :
    List TranslationResult :=
  allDrivers.map (fun d => translate input d options)

/-! ## Claim C2: escape round-trip -/

/-- Undoubling a character is transparent to other characters. -/
lemma undoubleL_cons_ne (q c : Char) (xs : Str) (h : c ≠ q) :
    undoubleL q (c :: xs) = c :: undoubleL q xs := by
  cases xs with
  | nil => rfl
  | cons y r => simp [undoubleL, h]

/-- Undoubling inverts doubling. -/
lemma undouble_repl (q : Char) (v : Str) :
    undoubleL q (replCharL q [q, q] v) = v := by
  induction v with
  | nil => rfl
  | cons c cs ih =>
    by_cases hc : c = q
    · subst hc
      simpa [replCharL, undoubleL] using ih
    · simp [replCharL, hc, undoubleL_cons_ne q c _ hc, ih]

/-- A list wrapped in non-space characters trims to itself. -/
lemma jsTrimL_wrapped (a b : Char) (l : Str)
    (ha : jsIsSpace a = false) (hb : jsIsSpace b = false) :
    jsTrimL (a :: (l ++ [b])) = a :: (l ++ [b]) := by
  have h1 : (a :: (l ++ [b])).dropWhile jsIsSpace = a :: (l ++ [b]) := by
    simp [List.dropWhile_cons, ha]
  have h2 : (a :: (l ++ [b])).reverse = b :: (l.reverse ++ [a]) := by simp
  unfold jsTrimL
  rw [h1, h2]
  have h3 : (b :: (l.reverse ++ [a])).dropWhile jsIsSpace = b :: (l.reverse ++ [a]) := by
    simp [List.dropWhile_cons, hb]
  rw [h3, ← h2, List.reverse_reverse]

/-- The last element of a wrapped list. -/
lemma getLast?_wrapped (a b : Char) (l : Str) :
    (a :: (l ++ [b])).getLast? = some b := by
  rw [show a :: (l ++ [b]) = (a :: l) ++ [b] by simp]
  exact List.getLast?_concat _

/-- `seW` holds on a wrapped list. -/
lemma seW_wrapped (a b : Char) (l : Str) : seW a b (a :: (l ++ [b])) = true := by
  simp [seW, getLast?_wrapped]

/-- Dropping the first and last characters of a wrapped list. -/
lemma slice1m1_wrapped (a b : Char) (l : Str) : slice1m1 (a :: (l ++ [b])) = l := by
  simp [slice1m1]

/-- De-escaping a quote-wrapped quote-doubled value restores it. -/
lemma unescape_quoted (v : Str) :
    unescapeValue ('\x22' :: (replCharL '\x22' ['\x22', '\x22'] v ++ ['\x22'])) = v := by
  unfold unescapeValue
  rw [if_neg (by simp)]
  rw [jsTrimL_wrapped _ _ _ (by decide) (by decide)]
  rw [if_pos (by rw [seW_wrapped])]
  rw [slice1m1_wrapped, undouble_repl]

/-- De-escaping a brace-wrapped brace-doubled value restores it. -/
lemma unescape_braced (v : Str) :
    unescapeValue ('\x7b' :: (replCharL '\x7d' ['\x7d', '\x7d'] v ++ ['\x7d'])) = v := by
  unfold unescapeValue
  rw [if_neg (by simp)]
  rw [jsTrimL_wrapped _ _ _ (by decide) (by decide)]
  rw [if_neg (by simp [seW]), if_neg (by simp [seW])]
  rw [if_pos (by rw [seW_wrapped])]
  rw [slice1m1_wrapped, undouble_repl]

/-- C2 (counterexample): under the Rust driver the round trip fails.
`escapeValue` escapes Rust-style with backslashes, which
`unescapeValue` does not undo: the value `;=\x7b\x7d"'` (containing all
six special characters) escapes to `";=\x7b\x7d\"'"`, which de-escapes
to `;=\x7b\x7d\"'` — with a stray backslash — rather than the original. -/
theorem c2_counterexample :
    unescapeValue (escapeValue (st ";=\x7b\x7d\"'") .rust) ≠ st ";=\x7b\x7d\"'" := by
  decide

/-- C2 (amended): for every value containing all of the characters
`; = \x7b \x7d " '` and every driver other than Rust, escaping the value
under that driver's rule and then de-escaping it yields the original
value.  (For Rust, `escapeValue` uses backslash escaping that
`unescapeValue` does not invert; see the counterexample.) -/
theorem c2_amended (v : Str) (d : DriverT) (hd : d ≠ .rust)
    (hall : ∀ c ∈ SPECIAL_CHARS, v.contains c = true) :
    unescapeValue (escapeValue v d) = v := by
  have hne : needsEscaping v = true := by
    have hsemi : v.contains ';' = true := hall ';' (by simp [SPECIAL_CHARS])
    simp only [needsEscaping, List.any_eq_true]
    exact ⟨';', by simp [SPECIAL_CHARS], hsemi⟩
  cases d with
  | rust => exact absurd rfl hd
  | sqlclient => rw [show escapeValue v .sqlclient =
      '\x22' :: (replCharL '\x22' ['\x22', '\x22'] v ++ ['\x22']) by
        simp [escapeValue, hne]]
                 exact unescape_quoted v
  | oledb => rw [show escapeValue v .oledb =
      '\x22' :: (replCharL '\x22' ['\x22', '\x22'] v ++ ['\x22']) by
        simp [escapeValue, hne]]
             exact unescape_quoted v
  | php => rw [show escapeValue v .php =
      '\x22' :: (replCharL '\x22' ['\x22', '\x22'] v ++ ['\x22']) by
        simp [escapeValue, hne]]
           exact unescape_quoted v
  | python => rw [show escapeValue v .python =
      '\x22' :: (replCharL '\x22' ['\x22', '\x22'] v ++ ['\x22']) by
        simp [escapeValue, hne]]
              exact unescape_quoted v
  | odbc => rw [show escapeValue v .odbc =
      '\x7b' :: (replCharL '\x7d' ['\x7d', '\x7d'] v ++ ['\x7d']) by
        simp [escapeValue, hne]]
            exact unescape_braced v
  | jdbc => rw [show escapeValue v .jdbc =
      '\x7b' :: (replCharL '\x7d' ['\x7d', '\x7d'] v ++ ['\x7d']) by
        simp [escapeValue, hne]]
            exact unescape_braced v

/-- C2 (witness): the amended round trip at a concrete value containing
all six special characters, under the SqlClient rule. -/
theorem c2_amended_witness :
    DriverT.sqlclient ≠ DriverT.rust ∧
    (∀ c ∈ SPECIAL_CHARS, (st "a;=\x7b\x7d\"'b").contains c = true) ∧
    unescapeValue (escapeValue (st "a;=\x7b\x7d\"'b") .sqlclient) = st "a;=\x7b\x7d\"'b" :=
  ⟨by decide, by decide,
    c2_amended (st "a;=\x7b\x7d\"'b") .sqlclient (by decide) (by decide)⟩

/-! ## Claims C3, C4, C8: the mapper on a single parsed pair -/

/-- A synthetic one-pair parse result, as the mapper consumes it. -/
def singletonParsed (src : DriverT) (id : Str) (pv : ParsedValue) :
    ParsedConnectionString :=
  { driver := src, confidence := .low, pairs := [(id, pv)],
    originalInput := [], errors := [], warnings := [] }

/-- The mapper's empty accumulator. -/
def emptyMapAcc : MapAcc :=
  { translatedKeywords := [], untranslatableKeywords := [], warnings := [],
    keywordOrder := [], mappedPairs := [] }

/-- On a one-pair input the untranslatable list is that of one `mapStep`. -/
lemma mapKeywords_singleton_untranslatable (src tgt : DriverT) (id : Str)
    (pv : ParsedValue) :
    (mapKeywords (singletonParsed src id pv) tgt none).untranslatableKeywords =
      (mapStep src tgt none emptyMapAcc (id, pv)).untranslatableKeywords := rfl

/-- On a one-pair input with default options, the translated list is
that of one `mapStep`. -/
lemma mapKeywords_singleton_translated (src tgt : DriverT) (id : Str)
    (pv : ParsedValue) :
    (mapKeywords (singletonParsed src id pv) tgt none).translatedKeywords =
      (mapStep src tgt none emptyMapAcc (id, pv)).translatedKeywords := rfl

/-- C3 (counterexample): `minpoolsize` is present in exactly one
driver's registry entries (SqlClient), yet translating it to Python
classifies it `BLOCKED_ALLOWLIST` — not `DRIVER_SPECIFIC` as the claim
requires — because the Python-allowlist check has priority. -/
theorem c3_counterexample :
    (allDrivers.filter (fun d =>
        match (getKeywordById (st "minpoolsize")).bind (fun k => k.drivers.get d) with
        | some c => c.name.isSome
        | none => false) = [.sqlclient]) ∧
    (mapKeywords (singletonParsed .sqlclient (st "minpoolsize")
        { raw := st "5", normalized := st "5", position := (0, 0),
          wasQuoted := false, originalKeyword := some (st "Min Pool Size") })
      .python none).untranslatableKeywords =
      [{ keyword := st "Min Pool Size", value := st "5",
         reason := .BLOCKED_ALLOWLIST }] ∧
    UntranslatableReason.BLOCKED_ALLOWLIST ≠ UntranslatableReason.DRIVER_SPECIFIC := by
  refine ⟨by decide, ?_, by decide⟩
  decide

/-- C3 (amended): for a parsed pair whose canonical keyword is in the
registry but whose target representation is absent or unnamed (and not
the JDBC `server` special case), `mapKeywords` records exactly one
untranslatable entry whose reason follows the priority
`BLOCKED_ALLOWLIST` (python target, blocked id) then `DEPRECATED` then
`DRIVER_SPECIFIC` (supported exactly by the source driver) then
`NOT_SUPPORTED`; moreover — amending the claim's second half — every
registry keyword supported by exactly one driver, translated from that
driver to any other, is classified `DRIVER_SPECIFIC` except when the
target is Python and the id is on the blocked allowlist, in which case
it is `BLOCKED_ALLOWLIST`; it is never `NOT_SUPPORTED`. -/
theorem c3_amended :
    (∀ (src tgt : DriverT) (id : Str) (pv : ParsedValue) (k : Keyword),
      getKeywordById id = some k →
      ((k.drivers.get tgt).bind (fun c => c.name)) = none →
      ¬ (tgt = .jdbc ∧ id = st "server") →
      (mapKeywords (singletonParsed src id pv) tgt none).untranslatableKeywords =
        [{ keyword := origOrId pv id, value := pv.normalized,
           reason :=
             if tgt = .python ∧ isPythonBlockedKeyword k.id then .BLOCKED_ALLOWLIST
             else if ((k.drivers.get tgt).map (fun c => c.deprecated)).getD false then
               .DEPRECATED
             else if allDrivers.filter (fun d =>
                 match k.drivers.get d with
                 | some c => c.name.isSome
                 | none => false) = [src] then .DRIVER_SPECIFIC
             else .NOT_SUPPORTED }]) ∧
    (keywords.all (fun k =>
      let sup := allDrivers.filter (fun d =>
        match k.drivers.get d with
        | some c => c.name.isSome
        | none => false)
      match sup with
      | [d] => allDrivers.all (fun t =>
          if t = d then true
          else if t = .python ∧ isPythonBlockedKeyword k.id then
            getUntranslatableReason k t d == .BLOCKED_ALLOWLIST
          else getUntranslatableReason k t d == .DRIVER_SPECIFIC)
      | _ => true)) = true := by
  constructor
  · intro src tgt id pv k hk hname hnsrv
    cases hcfg : k.drivers.get tgt with
    | none =>
      simp only [mapKeywords_singleton_untranslatable, mapStep, hk, hcfg,
        Option.bind_none, if_neg hnsrv, emptyMapAcc]
      split <;> simp [getUntranslatableReason, hcfg]
    | some cfg =>
      rw [hcfg] at hname
      simp only [Option.some_bind] at hname
      simp only [mapKeywords_singleton_untranslatable, mapStep, hk, hcfg, hname,
        Option.some_bind, if_neg hnsrv, emptyMapAcc]
      split <;> simp [getUntranslatableReason, hcfg, hname]
  · decide

/-- C3 (witness): the amended statement at `typesystemversion` — a
SqlClient-only keyword whose id is missing from the Python blocked list
(the list carries the `typeystemversion` misspelling) — translated to
Python: the recorded reason is `DRIVER_SPECIFIC`. -/
theorem c3_amended_witness :
    getKeywordById (st "typesystemversion") =
      some (keywords.get ⟨30, by decide⟩) ∧
    (mapKeywords (singletonParsed .sqlclient (st "typesystemversion")
        { raw := st "Latest", normalized := st "Latest", position := (0, 0),
          wasQuoted := false, originalKeyword := some (st "Type System Version") })
      .python none).untranslatableKeywords =
      [{ keyword := st "Type System Version", value := st "Latest",
         reason := .DRIVER_SPECIFIC }] := by
  refine ⟨by decide, ?_⟩
  have h := c3_amended.1 .sqlclient .python (st "typesystemversion")
    { raw := st "Latest", normalized := st "Latest", position := (0, 0),
      wasQuoted := false, originalKeyword := some (st "Type System Version") }
    (keywords.get ⟨30, by decide⟩) (by decide) (by decide) (by decide)
  rw [h]
  decide

/-- C4: for every boolean-typed target representation, the mapper emits
the target driver's canonical boolean spelling of the normalized source
value and sets `valueTransformed` exactly when the emitted text differs
from the source value case-insensitively; the true set
`\x7bTrue, true, TRUE, Yes, yes, 1, on, SSPI\x7d` all normalize to true and
the false set `\x7bFalse, false, No, no, 0, off\x7d` to false; and the
canonical spellings are `True`/`False` for SqlClient and Python (and
OLEDB), `Yes`/`No` for ODBC, and `true`/`false` for JDBC, PHP and Rust. -/
theorem c4_confirmed :
    (∀ (src tgt : DriverT) (id : Str) (pv : ParsedValue) (k : Keyword)
       (cfg : DriverKeyword) (nm : Str) (b : Bool),
      getKeywordById id = some k →
      k.drivers.get tgt = some cfg →
      cfg.name = some nm →
      cfg.type = .boolean →
      normalizeBooleanValue (.s pv.normalized) = some b →
      (mapKeywords (singletonParsed src id pv) tgt none).translatedKeywords =
        [{ sourceKeyword := origOrId pv id, sourceValue := pv.normalized,
           targetKeyword := nm,
           targetValue := formatBooleanForDriver b tgt,
           valueTransformed :=
             decide (lowerL (formatBooleanForDriver b tgt) ≠ lowerL pv.normalized) }]) ∧
    ([st "True", st "true", st "TRUE", st "Yes", st "yes", st "1", st "on", st "SSPI"].all
      (fun v => normalizeBooleanValue (.s v) == some true)) = true ∧
    ([st "False", st "false", st "No", st "no", st "0", st "off"].all
      (fun v => normalizeBooleanValue (.s v) == some false)) = true ∧
    formatBooleanForDriver true .sqlclient = st "True" ∧
    formatBooleanForDriver true .python = st "True" ∧
    formatBooleanForDriver true .odbc = st "Yes" ∧
    formatBooleanForDriver true .jdbc = st "true" ∧
    formatBooleanForDriver true .php = st "true" ∧
    formatBooleanForDriver true .rust = st "true" ∧
    formatBooleanForDriver false .sqlclient = st "False" ∧
    formatBooleanForDriver false .python = st "False" ∧
    formatBooleanForDriver false .odbc = st "No" ∧
    formatBooleanForDriver false .jdbc = st "false" ∧
    formatBooleanForDriver false .php = st "false" ∧
    formatBooleanForDriver false .rust = st "false" := by
  refine ⟨?_, by decide, by decide, by decide, by decide, by decide, by decide,
    by decide, by decide, by decide, by decide, by decide, by decide, by decide,
    by decide⟩
  intro src tgt id pv k cfg nm b hk hcfg hnm htype hb
  simp only [mapKeywords_singleton_translated, mapStep, hk, hcfg, hnm,
    Option.some_bind, emptyMapAcc]
  rw [if_neg (by simp [htype]), if_pos htype, hb]
  simp

/-- C4 (witness): `TrustServerCertificate=yes` mapped to the SqlClient
boolean field emits `True`, marked transformed since the text changed
case-insensitively. -/
theorem c4_confirmed_witness :
    (mapKeywords (singletonParsed .odbc (st "trustservercertificate")
        { raw := st "yes", normalized := st "yes", position := (0, 0),
          wasQuoted := false, originalKeyword := some (st "TrustServerCertificate") })
      .sqlclient none).translatedKeywords =
      [{ sourceKeyword := st "TrustServerCertificate", sourceValue := st "yes",
         targetKeyword := st "TrustServerCertificate", targetValue := st "True",
         valueTransformed := true }] := by
  have h := c4_confirmed.1 .odbc .sqlclient (st "trustservercertificate")
    { raw := st "yes", normalized := st "yes", position := (0, 0),
      wasQuoted := false, originalKeyword := some (st "TrustServerCertificate") }
    (keywords.get ⟨9, by decide⟩)
    ((keywords.get ⟨9, by decide⟩).drivers.sqlclient.get (by decide))
    (st "TrustServerCertificate") true
    (by decide) (by decide) (by decide) (by decide) (by decide)
  rw [h]
  decide

/-- C8: for every enum-typed target representation with a non-empty
`enumValues` list, a source value normalizing to boolean-true is
replaced by the first listed enum value with `valueTransformed` set;
concretely, translating the SqlClient pair `Integrated Security=True`
to OLEDB yields `Integrated Security=SSPI`, transformed. -/
theorem c8_confirmed :
    (∀ (src tgt : DriverT) (id : Str) (pv : ParsedValue) (k : Keyword)
       (cfg : DriverKeyword) (nm : Str),
      getKeywordById id = some k →
      k.drivers.get tgt = some cfg →
      cfg.name = some nm →
      cfg.type = .enum →
      cfg.enumValues ≠ [] →
      normalizeBooleanValue (.s pv.normalized) = some true →
      (mapKeywords (singletonParsed src id pv) tgt none).translatedKeywords =
        [{ sourceKeyword := origOrId pv id, sourceValue := pv.normalized,
           targetKeyword := nm, targetValue := cfg.enumValues.headD [],
           valueTransformed := true }]) ∧
    (translate (st "Integrated Security=True") .oledb none).translatedKeywords =
      [{ sourceKeyword := st "Integrated Security", sourceValue := st "True",
         targetKeyword := st "Integrated Security", targetValue := st "SSPI",
         valueTransformed := true }] := by
  constructor
  · intro src tgt id pv k cfg nm hk hcfg hnm htype henum hb
    simp only [mapKeywords_singleton_translated, mapStep, hk, hcfg, hnm,
      Option.some_bind, emptyMapAcc]
    rw [if_pos ⟨htype, henum⟩, hb]
    simp
  · decide

/-- C8 (witness): the general enum rule applied to the
`integratedsecurity` keyword with OLEDB's `enumValues = [SSPI]`. -/
theorem c8_confirmed_witness :
    (mapKeywords (singletonParsed .sqlclient (st "integratedsecurity")
        { raw := st "True", normalized := st "True", position := (0, 0),
          wasQuoted := false, originalKeyword := some (st "Integrated Security") })
      .oledb none).translatedKeywords =
      [{ sourceKeyword := st "Integrated Security", sourceValue := st "True",
         targetKeyword := st "Integrated Security", targetValue := st "SSPI",
         valueTransformed := true }] := by
  have h := c8_confirmed.1 .sqlclient .oledb (st "integratedsecurity")
    { raw := st "True", normalized := st "True", position := (0, 0),
      wasQuoted := false, originalKeyword := some (st "Integrated Security") }
    (keywords.get ⟨6, by decide⟩)
    ((keywords.get ⟨6, by decide⟩).drivers.oledb.get (by decide))
    (st "Integrated Security")
    (by decide) (by decide) (by decide) (by decide) (by decide) (by decide)
  rw [h]
  decide

/-! ## Claims C1 and C10: the orchestrator's error handling -/

/-- C1: whenever parsing yields at least one fatal error, `translate`
returns `success = false`, an empty connection string, empty translated
and untranslatable lists, and a non-empty errors list; whenever parsing
yields no fatal error, it returns `success = true` with an empty errors
list. -/
theorem c1_confirmed (input : Str) (tgt : DriverT) (opts : Option TranslationOptions) :
    ((parse input).errors ≠ [] →
      (translate input tgt opts).success = false ∧
      (translate input tgt opts).connectionString = [] ∧
      (translate input tgt opts).translatedKeywords = [] ∧
      (translate input tgt opts).untranslatableKeywords = [] ∧
      (translate input tgt opts).errors ≠ []) ∧
    ((parse input).errors = [] →
      (translate input tgt opts).success = true ∧
      (translate input tgt opts).errors = []) := by
  constructor
  · intro h
    have hl : 0 < (parse input).errors.length := List.length_pos.mpr h
    simp only [translate, if_pos hl]
    simp [h]
  · intro h
    simp [translate, h]

/-- C1 (witness): the empty input fails to parse and `translate`
short-circuits; the input `x=y` parses cleanly and `translate`
succeeds with no errors. -/
theorem c1_confirmed_witness :
    ((parse (st "")).errors ≠ [] ∧
      (translate (st "") .jdbc none).success = false ∧
      (translate (st "") .jdbc none).errors ≠ []) ∧
    ((parse (st "x=y")).errors = [] ∧
      (translate (st "x=y") .sqlclient none).success = true ∧
      (translate (st "x=y") .sqlclient none).errors = []) := by
  have h1 := (c1_confirmed (st "") .jdbc none).1 (by decide)
  have h2 := (c1_confirmed (st "x=y") .sqlclient none).2 (by decide)
  exact ⟨⟨by decide, h1.1, h1.2.2.2.2⟩, ⟨by decide, h2.1, h2.2⟩⟩

/-- C10: whenever `translate` returns `success = false`, every element
of its errors list carries code `PARSE_FAILED` — the parser's specific
code is not carried over — while each error's message text is
preserved, in order. -/
theorem c10_confirmed (input : Str) (tgt : DriverT) (opts : Option TranslationOptions)
    (h : (translate input tgt opts).success = false) :
    (∀ e ∈ (translate input tgt opts).errors, e.code = .PARSE_FAILED) ∧
    (translate input tgt opts).errors.map (fun e => e.message) =
      (parse input).errors.map (fun e => e.message) ∧
    (parse input).errors ≠ [] := by
  by_cases hp : (parse input).errors = []
  · exfalso
    have := ((c1_confirmed input tgt opts).2 hp).1
    rw [this] at h
    exact Bool.noConfusion h
  · have hl : 0 < (parse input).errors.length := List.length_pos.mpr hp
    simp only [translate, if_pos hl]
    refine ⟨?_, ?_, hp⟩
    · intro e he
      simp only [List.mem_map] at he
      obtain ⟨e', _, rfl⟩ := he
      rfl
    · simp

/-- C10 (witness): at the empty input, `translate` fails and all
resulting error codes are `PARSE_FAILED` with the parse error's message
preserved. -/
theorem c10_confirmed_witness :
    (translate (st "") .sqlclient none).success = false ∧
    (∀ e ∈ (translate (st "") .sqlclient none).errors, e.code = .PARSE_FAILED) ∧
    (translate (st "") .sqlclient none).errors.map (fun e => e.message) =
      (parse (st "")).errors.map (fun e => e.message) := by
  have h := c10_confirmed (st "") .sqlclient none (by decide)
  exact ⟨by decide, h.1, h.2.1⟩

/-! ## Claim C6: the 32 KiB size boundary -/

/-- Splitting membership in a one-element extension. -/
lemma mem_append_singleton {e x : ParseError} {es : List ParseError}
    (he : e ∈ es ++ [x]) : e ∈ es ∨ e = x := by
  rcases List.mem_append.mp he with h | h
  · exact Or.inl h
  · simp only [List.mem_singleton] at h
    exact Or.inr h

/-- The end-of-input step only ever adds unmatched-quote or
unmatched-brace errors. -/
lemma smEnd_errors_codes (mode : PMode) (s : TokSt) (i : Nat) :
    ∀ e ∈ (smEnd mode s i).errors,
      e ∈ s.errors ∨ e.code = .UNMATCHED_QUOTE ∨ e.code = .UNMATCHED_BRACE := by
  intro e he
  cases mode with
  | key => exact Or.inl he
  | done => exact Or.inl he
  | value =>
    simp only [smEnd] at he
    split at he
    · exact Or.inl he
    · exact Or.inl he
  | quoted =>
    simp only [smEnd] at he
    split at he <;>
      (rcases mem_append_singleton he with h | h
       · exact Or.inl h
       · subst h
         exact Or.inr (Or.inl rfl))
  | braced =>
    simp only [smEnd] at he
    split at he
    · split at he <;>
        (rcases mem_append_singleton he with h | h
         · exact Or.inl h
         · subst h
           exact Or.inr (Or.inr rfl))
    · exact Or.inl he

/-- The tokenizer only ever adds unmatched-quote or unmatched-brace
errors to the state it is started from. -/
lemma smRun_errors_codes (n : Nat) : ∀ (l : Str), l.length ≤ n →
    ∀ (mode : PMode) (s : TokSt) (i : Nat),
    ∀ e ∈ (smRun mode s i l).errors,
      e ∈ s.errors ∨ e.code = .UNMATCHED_QUOTE ∨ e.code = .UNMATCHED_BRACE := by
  induction n with
  | zero =>
    intro l hl mode s i e he
    have hln : l = [] := List.eq_nil_of_length_eq_zero (Nat.le_zero.mp hl)
    subst hln
    cases mode <;> (simp only [smRun] at he; exact smEnd_errors_codes _ s i e he)
  | succ n ih =>
    intro l hl mode s i e he
    cases l with
    | nil =>
      cases mode <;> (simp only [smRun] at he; exact smEnd_errors_codes _ s i e he)
    | cons c rest =>
      have hr : rest.length ≤ n := by simpa using hl
      cases mode with
      | done =>
        simp only [smRun] at he
        exact ih rest hr .done s (i + 1) e he
      | key =>
        simp only [smRun] at he
        by_cases h1 : c = '='
        · simp only [if_pos h1] at he
          have hmem := ih rest hr _ _ _ e he
          exact hmem
        · simp only [if_neg h1] at he
          by_cases h2 : c = ';'
          · simp only [if_pos h2] at he
            have hmem := ih rest hr _ _ _ e he
            exact hmem
          · simp only [if_neg h2] at he
            by_cases hk : s.curKey = []
            · simp only [if_pos hk] at he
              have hmem := ih rest hr _ _ _ e he
              exact hmem
            · simp only [if_neg hk] at he
              have hmem := ih rest hr _ _ _ e he
              exact hmem
      | value =>
        simp only [smRun] at he
        by_cases h1 : c = '\x22' ∨ c = '\x27'
        · simp only [if_pos h1] at he
          have hmem := ih rest hr _ _ _ e he
          exact hmem
        · simp only [if_neg h1] at he
          by_cases h2 : c = '\x7b'
          · simp only [if_pos h2] at he
            have hmem := ih rest hr _ _ _ e he
            exact hmem
          · simp only [if_neg h2] at he
            by_cases h3 : c = ';'
            · simp only [if_pos h3] at he
              by_cases hk : s.curKey ≠ []
              · simp only [if_pos hk] at he
                have hmem := ih rest hr _ _ _ e he
                exact hmem
              · simp only [if_neg hk] at he
                have hmem := ih rest hr _ _ _ e he
                exact hmem
            · simp only [if_neg h3] at he
              have hmem := ih rest hr _ _ _ e he
              exact hmem
      | quoted =>
        rw [smRun.eq_def] at he
        dsimp only at he
        by_cases hq : c = s.quoteChar
        · simp only [if_pos hq] at he
          cases rest with
          | nil =>
            have hmem := ih [] (by omega) _ _ _ e he
            exact hmem
          | cons c2 rest2 =>
            have hr2 : rest2.length ≤ n := by
              simp at hr
              omega
            by_cases hq2 : c2 = s.quoteChar
            · simp only [if_pos hq2] at he
              have hmem := ih rest2 hr2 _ _ _ e he
              exact hmem
            · simp only [if_neg hq2] at he
              have hmem := ih (c2 :: rest2) hr _ _ _ e he
              exact hmem
        · simp only [if_neg hq] at he
          have hmem := ih rest hr _ _ _ e he
          exact hmem
      | braced =>
        rw [smRun.eq_def] at he
        dsimp only at he
        by_cases h1 : c = '\x7b'
        · simp only [if_pos h1] at he
          have hmem := ih rest hr _ _ _ e he
          exact hmem
        · simp only [if_neg h1] at he
          by_cases h2 : c = '\x7d'
          · simp only [if_pos h2] at he
            cases rest with
            | nil =>
              by_cases hd : s.braceDepth - 1 = 0
              · simp only [if_pos hd] at he
                have hmem := ih [] (by omega) _ _ _ e he
                exact hmem
              · simp only [if_neg hd] at he
                have hmem := ih [] (by omega) _ _ _ e he
                exact hmem
            | cons c2 rest2 =>
              have hr2 : rest2.length ≤ n := by
                simp at hr
                omega
              by_cases hb2 : c2 = '\x7d'
              · simp only [if_pos hb2] at he
                have hmem := ih rest2 hr2 _ _ _ e he
                exact hmem
              · simp only [if_neg hb2] at he
                by_cases hd : s.braceDepth - 1 = 0
                · simp only [if_pos hd] at he
                  have hmem := ih (c2 :: rest2) hr _ _ _ e he
                  exact hmem
                · simp only [if_neg hd] at he
                  have hmem := ih (c2 :: rest2) hr _ _ _ e he
                  exact hmem
          · simp only [if_neg h2] at he
            have hmem := ih rest hr _ _ _ e he
            exact hmem

/-- `parseJdbcUrl` can only emit the invalid-syntax error. -/
lemma parseJdbcUrl_errors (input : Str) :
    ∀ e ∈ (parseJdbcUrl input).errors, e.code = .INVALID_SYNTAX := by
  intro e he
  unfold parseJdbcUrl at he
  cases h : jdbcUrlMatch input with
  | none =>
    rw [h] at he
    simp at he
    rw [he]
  | some v =>
    obtain ⟨a, b, c⟩ := v
    rw [h] at he
    simp at he

/-- The tokenizer's error list carries only unmatched-quote and
unmatched-brace codes. -/
lemma parseKeyValuePairs_errors_codes (x : Str) :
    ∀ e ∈ (parseKeyValuePairs x).2,
      e.code = .UNMATCHED_QUOTE ∨ e.code = .UNMATCHED_BRACE := by
  intro e he
  have hm := smRun_errors_codes x.length x le_rfl .key
    { curKey := [], curVal := [], keyStart := 0, valueStart := 0,
      quoteChar := ' ', braceDepth := 0, pairs := [], errors := [] } 0 e he
  rcases hm with h | h | h
  · exact absurd h (List.not_mem_nil e)
  · exact Or.inl h
  · exact Or.inr h

/-- Under the size limit, every parse error is one of the four
content-level codes — never `INPUT_TOO_LARGE`. -/
lemma parse_errors_codes (input : Str)
    (h : ¬ utf8LenL input > MAX_CONNECTION_STRING_SIZE) :
    ∀ e ∈ (parse input).errors,
      e.code = .EMPTY_INPUT ∨ e.code = .INVALID_SYNTAX ∨
      e.code = .UNMATCHED_QUOTE ∨ e.code = .UNMATCHED_BRACE := by
  intro e he
  unfold parse at he
  rw [if_neg h] at he
  by_cases ht : jsTrimL input = []
  · rw [if_pos ht] at he
    simp at he
    rw [he]
    simp
  · rw [if_neg ht] at he
    dsimp only at he
    by_cases hjd : (detect (jsTrimL input)).driver = DriverT.jdbc ∧
        isPrefL (st "jdbc:sqlserver://") (lowerL (jsTrimL input)) = true
    · rw [if_pos hjd] at he
      dsimp only at he
      rcases List.mem_append.mp he with hx | hx
      · exact Or.inr (Or.inl (parseJdbcUrl_errors _ e hx))
      · rcases parseKeyValuePairs_errors_codes _ e hx with hc | hc
        · exact Or.inr (Or.inr (Or.inl hc))
        · exact Or.inr (Or.inr (Or.inr hc))
    · rw [if_neg hjd] at he
      dsimp only at he
      rcases List.mem_append.mp he with hx | hx
      · exact absurd hx (List.not_mem_nil e)
      · rcases parseKeyValuePairs_errors_codes _ e hx with hc | hc
        · exact Or.inr (Or.inr (Or.inl hc))
        · exact Or.inr (Or.inr (Or.inr hc))

/-- C6: an input whose UTF-8 byte length is exactly 32768 parses without
any `INPUT_TOO_LARGE` error; an input of 32769 bytes or more fails with
exactly that error code and an empty pair set. -/
theorem c6_confirmed (input : Str) :
    (utf8LenL input = MAX_CONNECTION_STRING_SIZE →
      ∀ e ∈ (parse input).errors, e.code ≠ .INPUT_TOO_LARGE) ∧
    (MAX_CONNECTION_STRING_SIZE + 1 ≤ utf8LenL input →
      (parse input).errors.map (fun e => e.code) = [.INPUT_TOO_LARGE] ∧
      (parse input).pairs = []) := by
  constructor
  · intro hlen e he hcode
    have hnot : ¬ utf8LenL input > MAX_CONNECTION_STRING_SIZE := by omega
    rcases parse_errors_codes input hnot e he with hc | hc | hc | hc <;>
      simp [hc] at hcode
  · intro hlen
    have hgt : utf8LenL input > MAX_CONNECTION_STRING_SIZE := by omega
    unfold parse
    rw [if_pos hgt]
    exact ⟨rfl, rfl⟩

/-- C6 (witness): 32768 letters parse without the size error; 32769
letters yield exactly the `INPUT_TOO_LARGE` error and no pairs. -/
theorem c6_confirmed_witness :
    (utf8LenL (List.replicate 32768 'a') = MAX_CONNECTION_STRING_SIZE ∧
      ∀ e ∈ (parse (List.replicate 32768 'a')).errors, e.code ≠ .INPUT_TOO_LARGE) ∧
    (MAX_CONNECTION_STRING_SIZE + 1 ≤ utf8LenL (List.replicate 32769 'a') ∧
      (parse (List.replicate 32769 'a')).errors.map (fun e => e.code) =
        [.INPUT_TOO_LARGE] ∧
      (parse (List.replicate 32769 'a')).pairs = []) := by
  have hsz : ∀ n : Nat, utf8LenL (List.replicate n 'a') = n := by
    intro n
    induction n with
    | zero => rfl
    | succ m ihm =>
      rw [List.replicate_succ]
      simp only [utf8LenL, List.map_cons, List.sum_cons] at ihm ⊢
      rw [ihm]
      rw [show utf8Size 'a' = 1 from rfl]
      omega
  constructor
  · exact ⟨hsz 32768, (c6_confirmed _).1 (hsz 32768)⟩
  · have h2 := (c6_confirmed (List.replicate 32769 'a')).2
      (by rw [hsz]; decide)
    exact ⟨by rw [hsz]; decide, h2.1, h2.2⟩

/-! ## Claim C7: duplicate policy -/

/-- C7 (counterexample): in the JDBC URL input
`jdbc:sqlserver://myhost;server=other`, the canonical `server` id occurs
twice — first as the URL host `myhost` injected into the pair set, then
as the property `server=other` — yet the parsed server value is the
SECOND occurrence `other` and no `DUPLICATE_KEYWORD` warning is emitted:
the duplicate-tracking set does not cover the URL-injected entry, so the
property silently overwrites it, contradicting the claim's universal
first-occurrence-wins-with-warning statement. -/
theorem c7_counterexample :
    (parse (st "jdbc:sqlserver://myhost;server=other")).jdbcUrl =
      some { host := st "myhost", port := 1433 } ∧
    ((parse (st "jdbc:sqlserver://myhost;server=other")).pairs.lookup
        (st "server")).map (fun pv => pv.normalized) = some (st "other") ∧
    st "other" ≠ st "myhost" ∧
    (parse (st "jdbc:sqlserver://myhost;server=other")).warnings.filter
      (fun w => w.code == ParseWarningCode.DUPLICATE_KEYWORD) = [] := by
  exact ⟨by decide, by decide, by decide, by decide⟩

/-- The canonical id the parser assigns a raw key under a driver. -/
def canonOf (driver : DriverT) (rawKey : Str) : Str :=
  (resolveKeyword rawKey (some driver)).getD (normKeyL rawKey)

/-- Specification-side recursion: the raw pairs whose canonical id has
not occurred before (first occurrence per canonical id). -/
def firstWins (driver : DriverT) (seen : List Str) :
    List (Str × Str × Nat × Nat) → List (Str × Str × Nat × Nat)
  | [] => []
  | p :: ps =>
    if seen.contains (canonOf driver p.1) then firstWins driver seen ps
    else p :: firstWins driver (seen ++ [canonOf driver p.1]) ps

/-- Specification-side recursion: the raw pairs whose canonical id
already occurred earlier (the dropped subsequent occurrences). -/
def laterDups (driver : DriverT) (seen : List Str) :
    List (Str × Str × Nat × Nat) → List (Str × Str × Nat × Nat)
  | [] => []
  | p :: ps =>
    if seen.contains (canonOf driver p.1) then p :: laterDups driver seen ps
    else laterDups driver (seen ++ [canonOf driver p.1]) ps

/-- The parsed value the parser stores for a kept raw pair. -/
def storedPV (p : Str × Str × Nat × Nat) : ParsedValue :=
  { raw := p.2.1,
    normalized := if isQuotedOrBraced p.2.1 then unescapeValue p.2.1
                  else jsTrimL p.2.1,
    position := (p.2.2.1, p.2.2.2),
    wasQuoted := isQuotedOrBraced p.2.1,
    originalKeyword := some p.1 }

/-- `Map.set` on an absent key appends. -/
lemma mapSet_append {α : Type} (pairs : List (Str × α)) (k : Str) (v : α)
    (h : ∀ q ∈ pairs, q.1 ≠ k) : mapSet pairs k v = pairs ++ [(k, v)] := by
  induction pairs with
  | nil => rfl
  | cons q rest ihp =>
    simp only [mapSet]
    rw [if_neg (h q (by simp))]
    rw [ihp (fun q' hq' => h q' (by simp [hq']))]
    simp

/-- The per-pair loop, started from any state whose stored keys are all
marked seen, keeps exactly the first occurrence of each canonical id
(appending in order) and emits exactly one `DUPLICATE_KEYWORD` warning
per dropped subsequent occurrence. -/
lemma processPairs_spec (driver : DriverT) :
    ∀ (ps : List (Str × Str × Nat × Nat)) (seen : List Str)
      (pairs : List (Str × ParsedValue)) (warns : List ParseWarning),
      (∀ q ∈ pairs, seen.contains q.1 = true) →
      (processPairs driver ps seen pairs warns).pairs =
        pairs ++ (firstWins driver seen ps).map (fun p =>
          (canonOf driver p.1, storedPV p)) ∧
      (processPairs driver ps seen pairs warns).warnings.filter
          (fun w => w.code == ParseWarningCode.DUPLICATE_KEYWORD) =
        warns.filter (fun w => w.code == ParseWarningCode.DUPLICATE_KEYWORD) ++
          (laterDups driver seen ps).map (fun p =>
            dupWarn p.1 (p.2.2.1, p.2.2.2)) := by
  intro ps
  induction ps with
  | nil =>
    intro seen pairs warns hkeys
    simp [processPairs, firstWins, laterDups]
  | cons p ps ihp =>
    intro seen pairs warns hkeys
    obtain ⟨rawKey, rawValue, pstart, pend⟩ := p
    by_cases hdup : seen.contains (canonOf driver rawKey) = true
    · have hstep := ihp seen pairs (warns ++ [dupWarn rawKey (pstart, pend)]) hkeys
      constructor
      · rw [show processPairs driver ((rawKey, rawValue, pstart, pend) :: ps)
              seen pairs warns =
            processPairs driver ps seen pairs
              (warns ++ [dupWarn rawKey (pstart, pend)]) by
          simp only [processPairs]
          rw [if_pos (show seen.contains ((resolveKeyword rawKey
            (some driver)).getD (normKeyL rawKey)) = true from hdup)]]
        rw [hstep.1]
        simp only [firstWins]
        rw [if_pos hdup]
      · rw [show processPairs driver ((rawKey, rawValue, pstart, pend) :: ps)
              seen pairs warns =
            processPairs driver ps seen pairs
              (warns ++ [dupWarn rawKey (pstart, pend)]) by
          simp only [processPairs]
          rw [if_pos (show seen.contains ((resolveKeyword rawKey
            (some driver)).getD (normKeyL rawKey)) = true from hdup)]]
        rw [hstep.2]
        simp only [laterDups]
        rw [if_pos hdup]
        simp [dupWarn, List.filter_append]
    · have hnotkey : ∀ q ∈ pairs, q.1 ≠ canonOf driver rawKey := by
        intro q hq hqe
        rw [← hqe] at hdup
        exact hdup (hkeys q hq)
      have hset := mapSet_append pairs (canonOf driver rawKey)
        (storedPV (rawKey, rawValue, pstart, pend)) hnotkey
      have hkeys2 : ∀ q ∈ mapSet pairs (canonOf driver rawKey)
          (storedPV (rawKey, rawValue, pstart, pend)),
          (seen ++ [canonOf driver rawKey]).contains q.1 = true := by
        intro q hq
        rw [hset] at hq
        rcases List.mem_append.mp hq with hx | hx
        · have hqm : q.1 ∈ seen := by simpa using hkeys q hx
          simp [hqm]
        · simp at hx
          simp [hx]
      have hstep2 := ihp (seen ++ [canonOf driver rawKey])
        (mapSet pairs (canonOf driver rawKey)
          (storedPV (rawKey, rawValue, pstart, pend)))
        (if !(isKnownKeyword rawKey (some driver)) then
          warns ++ [unknownWarn rawKey (pstart, pend)] else warns) hkeys2
      have hred : processPairs driver ((rawKey, rawValue, pstart, pend) :: ps)
            seen pairs warns =
          processPairs driver ps (seen ++ [canonOf driver rawKey])
            (mapSet pairs (canonOf driver rawKey)
              (storedPV (rawKey, rawValue, pstart, pend)))
            (if !(isKnownKeyword rawKey (some driver)) then
              warns ++ [unknownWarn rawKey (pstart, pend)] else warns) := by
        simp only [processPairs, canonOf, storedPV]
        rw [if_neg (show ¬ seen.contains ((resolveKeyword rawKey
          (some driver)).getD (normKeyL rawKey)) = true from hdup)]
      constructor
      · rw [hred, hstep2.1, hset]
        simp only [firstWins]
        rw [if_neg hdup]
        simp
      · rw [hred, hstep2.2]
        simp only [laterDups]
        rw [if_neg hdup]
        have hfw : (if !(isKnownKeyword rawKey (some driver)) then
              warns ++ [unknownWarn rawKey (pstart, pend)] else warns).filter
            (fun w => w.code == ParseWarningCode.DUPLICATE_KEYWORD) =
            warns.filter (fun w => w.code == ParseWarningCode.DUPLICATE_KEYWORD) := by
          split
          · simp [List.filter_append, unknownWarn]
          · rfl
        rw [hfw]

/-- C7 (amended): in the semicolon-delimited property stream the first
occurrence of each canonical id wins and each subsequent occurrence is
dropped with exactly one non-fatal `DUPLICATE_KEYWORD` warning — this is
the behaviour of the parser's per-pair loop started from an empty pair
set, and in particular `Server=first;Server=second` parses to
`server = first` with exactly one duplicate warning naming the second
occurrence; the exception (forced by the counterexample) is a JDBC URL
input, whose URL-injected server value an explicit `server` property
overwrites without any warning. -/
theorem c7_amended :
    ((parse (st "Server=first;Server=second")).pairs.map
        (fun q => (q.1, q.2.normalized)) = [(st "server", st "first")] ∧
      (parse (st "Server=first;Server=second")).warnings =
        [dupWarn (st "Server") (13, 26)]) ∧
    (∀ (driver : DriverT) (ps : List (Str × Str × Nat × Nat)),
      (processPairs driver ps [] [] []).pairs =
        (firstWins driver [] ps).map (fun p =>
          (canonOf driver p.1, storedPV p)) ∧
      (processPairs driver ps [] [] []).warnings.filter
          (fun w => w.code == ParseWarningCode.DUPLICATE_KEYWORD) =
        (laterDups driver [] ps).map (fun p =>
          dupWarn p.1 (p.2.2.1, p.2.2.2))) := by
  constructor
  · exact ⟨by decide, by decide⟩
  · intro driver ps
    have h := processPairs_spec driver ps [] [] [] (by intro q hq; cases hq)
    exact ⟨by rw [h.1]; rfl, by rw [h.2]; rfl⟩

/-! ## Claim C5: JDBC URL generation -/

/-- C5 (counterexample): translating `Server=myhost` to JDBC emits
`jdbc:sqlserver://myhost:1433;` — the port is present even though it
equals the default 1433, contradicting the claim that the port is
omitted from the emitted URL when it equals the default. -/
theorem c5_counterexample :
    (translate (st "Server=myhost") .jdbc none).connectionString =
      st "jdbc:sqlserver://myhost:1433;" ∧
    (translate (st "Server=myhost") .jdbc none).connectionString ≠
      st "jdbc:sqlserver://myhost;" := by
  exact ⟨by decide, by decide⟩

/-- `takeWhile` runs through a satisfying block up to a failing head. -/
lemma takeWhile_append_all {p : Char → Bool} :
    ∀ (h : Str) (c : Char) (t : Str),
      (∀ x ∈ h, p x = true) → p c = false →
      (h ++ c :: t).takeWhile p = h := by
  intro h
  induction h with
  | nil =>
    intro c t _ hc
    simp [List.takeWhile_cons, hc]
  | cons a h' ihh =>
    intro c t hall hc
    simp only [List.cons_append, List.takeWhile_cons, hall a (by simp)]
    rw [ihh c t (fun x hx => hall x (by simp [hx])) hc]
    simp

/-- `takeWhile` keeps a fully satisfying list. -/
lemma takeWhile_all {p : Char → Bool} :
    ∀ (l : Str), (∀ x ∈ l, p x = true) → l.takeWhile p = l := by
  intro l
  induction l with
  | nil => intro _; rfl
  | cons a l' ihl =>
    intro hall
    simp only [List.takeWhile_cons, hall a (by simp)]
    rw [ihl (fun x hx => hall x (by simp [hx]))]
    simp

/-- The backslash-split regex on a value of shape `host\instance` with
a line-terminator-free instance. -/
lemma jdbcInstanceMatch_shape (h inst : Str)
    (hne : h ≠ []) (hnb : ∀ x ∈ h, x ≠ '\\') (hin : inst ≠ [])
    (hlt : ∀ x ∈ inst, isLineTerminator x = false) :
    jdbcInstanceMatch (h ++ '\\' :: inst) = some (h, inst) := by
  unfold jdbcInstanceMatch
  rw [takeWhile_append_all h '\\' inst
    (fun x hx => by simp [hnb x hx]) (by simp)]
  simp only [List.drop_left]
  have hall : inst.all (fun c => !(isLineTerminator c)) = true := by
    rw [List.all_eq_true]
    intro x hx
    simp [hlt x hx]
  simp [hne, hin, hall]

/-- The backslash-split regex refuses an instance tail containing a
line terminator: `.` does not match it. -/
lemma jdbcInstanceMatch_lineTerm (h inst : Str)
    (hnb : ∀ x ∈ h, x ≠ '\\') (hlt : ∃ x ∈ inst, isLineTerminator x = true) :
    jdbcInstanceMatch (h ++ '\\' :: inst) = none := by
  unfold jdbcInstanceMatch
  rw [takeWhile_append_all h '\\' inst
    (fun x hx => by simp [hnb x hx]) (by simp)]
  simp only [List.drop_left]
  rcases hlt with ⟨x, hx, hxt⟩
  have hall : inst.all (fun c => !(isLineTerminator c)) = false := by
    rw [List.all_eq_false]
    exact ⟨x, hx, by simp [hxt]⟩
  simp [hall]

/-- The backslash-split regex fails on a backslash-free value. -/
lemma jdbcInstanceMatch_none (sv : Str) (hnb : ∀ x ∈ sv, x ≠ '\\') :
    jdbcInstanceMatch sv = none := by
  unfold jdbcInstanceMatch
  rw [takeWhile_all sv (fun x hx => by simp [hnb x hx])]
  simp only [List.drop_length]

/-- The port-split regex on a value of shape `host:port` or
`host,port`. -/
lemma jdbcPortMatch_shape (h ds : Str) (sep : Char)
    (hsep : sep = ':' ∨ sep = ',') (hne : h ≠ [])
    (hh : ∀ x ∈ h, x ≠ ':' ∧ x ≠ ',' ∧ x ≠ '\\')
    (hds : ds ≠ []) (hdig : ds.all Char.isDigit = true) :
    jdbcPortMatch (h ++ sep :: ds) = some (h, natOfDigits ds) := by
  unfold jdbcPortMatch
  rw [takeWhile_append_all h sep ds
    (fun x hx => by simp [(hh x hx).1, (hh x hx).2.1, (hh x hx).2.2])
    (by rcases hsep with hs | hs <;> simp [hs])]
  simp only [List.drop_left]
  rw [if_pos ⟨hsep, hne, hds, by simpa using hdig⟩]

/-- The host, port and instance `generateJdbc` derives from the three
server sub-syntaxes: `host\instance` (default port), `host:port` and
`host,port` (parsed port), and a plain host (default port). -/
lemma jdbcServerInfo_shapes :
    (∀ (h inst : Str), h ≠ [] → (∀ x ∈ h, x ≠ '\\') → inst ≠ [] →
      (∀ x ∈ inst, isLineTerminator x = false) →
      jdbcServerInfo (some (h ++ '\\' :: inst)) = (h, 1433, some inst)) ∧
    (∀ (h ds : Str) (sep : Char), (sep = ':' ∨ sep = ',') → h ≠ [] →
      (∀ x ∈ h, x ≠ ':' ∧ x ≠ ',' ∧ x ≠ '\\') → ds ≠ [] →
      ds.all Char.isDigit = true → (∀ x ∈ h, x ≠ '\\') →
      jdbcServerInfo (some (h ++ sep :: ds)) = (h, natOfDigits ds, none)) ∧
    (∀ sv : Str, sv ≠ [] → jdbcInstanceMatch sv = none →
      jdbcPortMatch sv = none → jdbcServerInfo (some sv) = (sv, 1433, none)) := by
  refine ⟨?_, ?_, ?_⟩
  · intro h inst hne hnb hin hlt
    simp only [jdbcServerInfo]
    rw [if_neg (show ¬ h ++ '\\' :: inst = [] by simp)]
    rw [jdbcInstanceMatch_shape h inst hne hnb hin hlt]
  · intro h ds sep hsep hne hh hds hdig hnb
    have hnb2 : ∀ x ∈ h ++ sep :: ds, x ≠ '\\' := by
      intro x hx
      rcases List.mem_append.mp hx with hx1 | hx1
      · exact hnb x hx1
      · rcases List.mem_cons.mp hx1 with hx2 | hx2
        · subst hx2
          rcases hsep with hs | hs <;> simp [hs]
        · have : x.isDigit = true := by
            have := List.all_eq_true.mp hdig x hx2
            simpa using this
          intro hcon
          rw [hcon] at this
          exact absurd this (by decide)
    simp only [jdbcServerInfo]
    rw [if_neg (show ¬ h ++ sep :: ds = [] by simp)]
    rw [jdbcInstanceMatch_none _ hnb2]
    rw [jdbcPortMatch_shape h ds sep hsep hne hh hds hdig]
  · intro sv hne hi hp
    simp only [jdbcServerInfo]
    rw [if_neg hne, hi, hp]

/-- A conditional-append fold is an append of the filtered map. -/
lemma foldl_skip_append {α β : Type} (p : α → Bool) (f : α → β) :
    ∀ (l : List α) (acc : List β),
      l.foldl (fun ps kw => if p kw then ps else ps ++ [f kw]) acc =
        acc ++ (l.filter (fun kw => !(p kw))).map f := by
  intro l
  induction l with
  | nil => intro acc; simp
  | cons a l' ihl =>
    intro acc
    simp only [List.foldl_cons, List.filter_cons]
    by_cases hp : p a
    · rw [if_pos hp]
      simp only [hp, Bool.not_true]
      rw [ihl acc]
      simp
    · rw [if_neg hp]
      simp only [Bool.not_eq_true] at hp
      simp only [hp, Bool.not_false]
      rw [ihl (acc ++ [f a])]
      simp

/-- C5 (amended): JDBC URL generation. The mapped server value is split
by the three sub-syntaxes — `host\instance` gives the host with the
default port 1433 and the instance name (only when the instance part
is free of line terminators, which `.+` refuses; a tail containing one
defeats the split), `host:port` and `host,port` give the host with the
parsed port (stated on the regime below `2 ^ 53` where `parseInt` is
exact), and anything else is the host with the default port — and the
generated URL is `jdbc:sqlserver://host:port;` followed by the
`;`-joined properties (`instanceName=...` first when an instance was
present, then every translated keyword whose source keyword does not
resolve to a server-family id, as `key=value`), with a trailing
separator when any property exists. The port always appears in the
URL, including when it equals the default 1433. -/
theorem c5_amended :
    (∀ (h inst : Str), h ≠ [] → (∀ x ∈ h, x ≠ '\\') → inst ≠ [] →
      (∀ x ∈ inst, isLineTerminator x = false) →
      jdbcServerInfo (some (h ++ '\\' :: inst)) = (h, 1433, some inst)) ∧
    (∀ (h inst : Str), (∀ x ∈ h, x ≠ '\\') →
      (∃ x ∈ inst, isLineTerminator x = true) →
      jdbcInstanceMatch (h ++ '\\' :: inst) = none) ∧
    (∀ (h ds : Str) (sep : Char), (sep = ':' ∨ sep = ',') → h ≠ [] →
      (∀ x ∈ h, x ≠ ':' ∧ x ≠ ',' ∧ x ≠ '\\') → ds ≠ [] →
      ds.all Char.isDigit = true → natOfDigits ds < 2 ^ 53 →
      jdbcServerInfo (some (h ++ sep :: ds)) = (h, natOfDigits ds, none)) ∧
    (∀ sv : Str, sv ≠ [] → jdbcInstanceMatch sv = none →
      jdbcPortMatch sv = none → jdbcServerInfo (some sv) = (sv, 1433, none)) ∧
    (∀ (mapped : MappingResult) (parsed : Option ParsedConnectionString)
        (options : Option TranslationOptions),
      generateJdbc mapped parsed options =
        (let info := jdbcServerInfo (parsed.bind (fun p =>
            (p.pairs.lookup (st "server")).map (fun pv => pv.normalized)))
         let baseProps := (mapped.translatedKeywords.filter (fun kw =>
            !(match resolveKeyword kw.sourceKeyword none with
              | some cid => serverRelatedKeywords.contains cid
              | none => false))).map (fun kw =>
                kw.targetKeyword ++ st "=" ++ formatValueForJdbc kw.targetValue)
         let props := match info.2.2 with
           | some inst => (st "instanceName=" ++ inst) :: baseProps
           | none => baseProps
         let propsStr := List.intercalate (sepOf options) props
         st "jdbc:sqlserver://" ++ info.1 ++ st ":" ++ natStr info.2.1 ++
           st ";" ++ propsStr ++ (if propsStr ≠ [] then st ";" else []))) := by
  refine ⟨jdbcServerInfo_shapes.1, jdbcInstanceMatch_lineTerm, ?_,
    jdbcServerInfo_shapes.2.2, ?_⟩
  · intro h ds sep hsep hne hh hds hdig hexact
    exact jdbcServerInfo_shapes.2.1 h ds sep hsep hne hh hds hdig
      (fun x hx => (hh x hx).2.2)
  · intro mapped parsed options
    simp only [generateJdbc]
    rw [foldl_skip_append (fun kw => match resolveKeyword kw.sourceKeyword none with
        | some cid => serverRelatedKeywords.contains cid
        | none => false)
      (fun kw => kw.targetKeyword ++ st "=" ++ formatValueForJdbc kw.targetValue)
      mapped.translatedKeywords []]
    simp

/-- C5 (amended) witness: the instance sub-syntax at
`myhost\sqlexpress`. -/
theorem c5_amended_witness :
    jdbcServerInfo (some (st "myhost" ++ '\\' :: st "sqlexpress")) =
      (st "myhost", 1433, some (st "sqlexpress")) :=
  c5_amended.1 (st "myhost") (st "sqlexpress") (by decide) (by decide) (by decide)
    (by decide)

/-! ## Claim C9: keyword-frequency fallback scoring -/

/-- Folding `max` from an initial value. -/
lemma foldr_max_init (L : List Nat) (a : Nat) :
    L.foldr max a = max a (L.foldr max 0) := by
  induction L with
  | nil => simp
  | cons x L ihL =>
    simp only [List.foldr_cons, ihL]
    omega

/-- A positive `max`-fold value occurs in the list. -/
lemma foldr_max_mem :
    ∀ L : List Nat, L.foldr max 0 = 0 ∨ (L.foldr max 0) ∈ L := by
  intro L
  induction L with
  | nil => exact Or.inl rfl
  | cons x L ihL =>
    simp only [List.foldr_cons]
    by_cases hx : L.foldr max 0 ≤ x
    · right
      rw [max_eq_left hx]
      simp
    · rcases ihL with h0 | hmem
      · omega
      · right
        rw [max_eq_right (by omega)]
        simp [hmem]

/-- `find?` respects pointwise-equal predicates. -/
lemma find?_congr_pw {α : Type} {p q : α → Bool} :
    ∀ (l : List α), (∀ x ∈ l, p x = q x) → l.find? p = l.find? q := by
  intro l
  induction l with
  | nil => intro _; rfl
  | cons a l' ihl =>
    intro h
    rcases hqa : q a with _ | _
    · rw [List.find?_cons_of_neg _ (by simp [h a (by simp), hqa]),
        List.find?_cons_of_neg _ (by simp [hqa])]
      exact ihl (fun x hx => h x (by simp [hx]))
    · rw [List.find?_cons_of_pos _ (by simp [h a (by simp), hqa]),
        List.find?_cons_of_pos _ (by simp [hqa])]

/-- The detector's running-max fold: the final score is the `max` of
all scores (seeded with the initial value), and the final driver is
the first list element attaining that max while strictly exceeding the
seed, else the seed driver. -/
lemma foldMax_char (score : DriverT → Nat) :
    ∀ (l : List DriverT) (m0 : Nat) (d0 : DriverT),
      l.foldl (fun acc d => if score d > acc.1 then (score d, d) else acc) (m0, d0) =
        ((l.map score).foldr max m0,
          (l.find? (fun x => decide ((l.map score).foldr max m0 = score x) &&
              decide (m0 < score x))).getD d0) := by
  intro l
  induction l with
  | nil =>
    intro m0 d0
    simp
  | cons d l' ihl =>
    intro m0 d0
    simp only [List.foldl_cons, List.map_cons, List.foldr_cons]
    by_cases hd : score d > m0
    · rw [if_pos hd, ihl (score d) d]
      by_cases hge : (l'.map score).foldr max 0 ≤ score d
      · have h1 : (l'.map score).foldr max (score d) = score d := by
          rw [foldr_max_init]; omega
        have h2 : max (score d) ((l'.map score).foldr max m0) = score d := by
          rw [foldr_max_init]; omega
        have hnone : l'.find? (fun x =>
            decide ((l'.map score).foldr max (score d) = score x) &&
            decide (score d < score x)) = none := by
          rw [List.find?_eq_none]
          intro x _
          rw [h1]
          simp only [Bool.and_eq_true, decide_eq_true_eq, not_and]
          omega
        have hpos : (decide (max (score d) ((l'.map score).foldr max m0) = score d) &&
            decide (m0 < score d)) = true := by
          simp only [Bool.and_eq_true, decide_eq_true_eq]
          exact ⟨h2, hd⟩
        rw [List.find?_cons_of_pos (p := fun x =>
            decide (max (score d) ((l'.map score).foldr max m0) = score x) &&
            decide (m0 < score x)) (a := d) l' hpos, hnone, h1, h2]
        rfl
      · push_neg at hge
        have h1 : (l'.map score).foldr max (score d) = (l'.map score).foldr max 0 := by
          rw [foldr_max_init]; omega
        have h2 : max (score d) ((l'.map score).foldr max m0) =
            (l'.map score).foldr max 0 := by
          rw [foldr_max_init]; omega
        have hneg : ¬ ((decide (max (score d) ((l'.map score).foldr max m0) = score d) &&
            decide (m0 < score d)) = true) := by
          simp only [Bool.and_eq_true, decide_eq_true_eq]
          rintro ⟨hx, _⟩
          rw [h2] at hx
          omega
        have hpw : ∀ x ∈ l', (decide ((l'.map score).foldr max (score d) = score x) &&
            decide (score d < score x)) =
            (decide (max (score d) ((l'.map score).foldr max m0) = score x) &&
            decide (m0 < score x)) := by
          intro x _
          rw [h1, h2]
          by_cases hfx : (l'.map score).foldr max 0 = score x
          · have hx1 : score d < score x := by omega
            have hx2 : m0 < score x := by omega
            simp [hfx, hx1, hx2]
          · simp [hfx]
        have hex : ∃ x ∈ l',
            (decide (max (score d) ((l'.map score).foldr max m0) = score x) &&
              decide (m0 < score x)) = true := by
          rcases foldr_max_mem (l'.map score) with h0 | hmem
          · omega
          · rcases List.mem_map.mp hmem with ⟨x, hx, hsx⟩
            refine ⟨x, hx, ?_⟩
            simp only [Bool.and_eq_true, decide_eq_true_eq]
            constructor
            · rw [h2, hsx]
            · omega
        rw [find?_congr_pw l' hpw, List.find?_cons_of_neg (p := fun x =>
            decide (max (score d) ((l'.map score).foldr max m0) = score x) &&
            decide (m0 < score x)) (a := d) l' hneg]
        rcases hfind : l'.find? (fun x =>
            decide (max (score d) ((l'.map score).foldr max m0) = score x) &&
            decide (m0 < score x)) with _ | ⟨y⟩
        · rcases hex with ⟨x, hx, hcx⟩
          exact absurd hcx (by simpa using List.find?_eq_none.mp hfind x hx)
        · rw [h1, h2]
          rfl
    · rw [if_neg hd, ihl m0 d0]
      have h2 : max (score d) ((l'.map score).foldr max m0) =
          (l'.map score).foldr max m0 := by
        rw [foldr_max_init (_ : List Nat) m0]
        omega
      have hneg : ¬ ((decide (max (score d) ((l'.map score).foldr max m0) = score d) &&
          decide (m0 < score d)) = true) := by
        simp only [Bool.and_eq_true, decide_eq_true_eq]
        rintro ⟨_, hx⟩
        omega
      rw [List.find?_cons_of_neg (p := fun x =>
          decide (max (score d) ((l'.map score).foldr max m0) = score x) &&
          decide (m0 < score x)) (a := d) l' hneg, h2]

/-- C9 (counterexample): the fallback weights and tie-breaking differ
from the claim. `uid=` adds 1 (not 2) to the ODBC score, so
`uid=a;dsn=b` scores 4 and is reported with medium confidence, where
the claimed weights (2 + 3 = 5) would force high confidence; and a tie
is won by the first driver in the scan order, not by SqlClient:
`uid=a;pwd=b;returnvaluesonnulls=x` is a tie at the maximum score 2
between ODBC and PHP, and ODBC is reported, not SqlClient. -/
theorem c9_counterexample :
    (detect (st "uid=a;dsn=b") = ⟨.odbc, .medium⟩ ∧
      Confidence.medium ≠ Confidence.high) ∧
    (detect (st "uid=a;pwd=b;returnvaluesonnulls=x") = ⟨.odbc, .low⟩ ∧
      scoreOf (lowerL (st "uid=a;pwd=b;returnvaluesonnulls=x")) .odbc = 2 ∧
      scoreOf (lowerL (st "uid=a;pwd=b;returnvaluesonnulls=x")) .php = 2 ∧
      (allDrivers.map (scoreOf (lowerL (st "uid=a;pwd=b;returnvaluesonnulls=x")))).foldr
          max 0 = 2 ∧
      DriverT.odbc ≠ DriverT.sqlclient) := by
  exact ⟨⟨by decide, by decide⟩, by decide, by decide, by decide, by decide, by decide⟩

/-- C9 (amended): the fallback weights as implemented give `uid=`
+1 ODBC (not +2), `dsn=` +3 ODBC and `persist security info=` +2
SqlClient; and when no signature rule fires, `detect` reports the
driver with the highest pattern score — ties and the all-zero case
resolved to the first driver in the fixed scan order
`[sqlclient, odbc, oledb, jdbc, php, python, rust]` — with confidence
high when the top score is at least 5, medium when at least 3, and low
otherwise. -/
theorem c9_amended :
    (scoreOf (lowerL (st "uid=x")) .odbc = 1 ∧
     scoreOf (lowerL (st "dsn=x")) .odbc = 3 ∧
     scoreOf (lowerL (st "persist security info=x")) .sqlclient = 2) ∧
    (∀ input : Str, sigDetect (jsTrimL input) = none →
      detect input =
        { driver := ((allDrivers.find? (fun x =>
              decide ((allDrivers.map (scoreOf (lowerL (jsTrimL input)))).foldr max 0 =
                scoreOf (lowerL (jsTrimL input)) x) &&
              decide (0 < scoreOf (lowerL (jsTrimL input)) x))).getD .sqlclient),
          confidence :=
            if (allDrivers.map (scoreOf (lowerL (jsTrimL input)))).foldr max 0 ≥ 5
            then .high
            else if (allDrivers.map (scoreOf (lowerL (jsTrimL input)))).foldr max 0 ≥ 3
            then .medium else .low }) := by
  refine ⟨⟨by decide, by decide, by decide⟩, ?_⟩
  intro input hsig
  simp only [detect, hsig]
  simp only [analyzeKeywords]
  rw [foldMax_char (scoreOf (lowerL (jsTrimL input))) allDrivers 0 DriverT.sqlclient]

/-- C9 (amended) witness: the fallback characterization applied at
`uid=a;dsn=b`. -/
theorem c9_amended_witness :
    sigDetect (jsTrimL (st "uid=a;dsn=b")) = none ∧
    detect (st "uid=a;dsn=b") =
      { driver := ((allDrivers.find? (fun x =>
            decide ((allDrivers.map (scoreOf (lowerL (jsTrimL (st "uid=a;dsn=b"))))).foldr max 0 =
              scoreOf (lowerL (jsTrimL (st "uid=a;dsn=b"))) x) &&
            decide (0 < scoreOf (lowerL (jsTrimL (st "uid=a;dsn=b"))) x))).getD .sqlclient),
        confidence :=
          if (allDrivers.map (scoreOf (lowerL (jsTrimL (st "uid=a;dsn=b"))))).foldr max 0 ≥ 5
          then .high
          else if (allDrivers.map (scoreOf (lowerL (jsTrimL (st "uid=a;dsn=b"))))).foldr max 0 ≥ 3
          then .medium else .low } :=
  ⟨by decide, c9_amended.2 (st "uid=a;dsn=b") (by decide)⟩

end CsTr
